import Mathlib

/-!
Verification development for the promptconduit CLI's event-normalization
core: a shallow embedding of the canonical event schema
(`src/promptconduit/schema/events.py`, `context.py`), the tool detector
(`scripts/promptconduit_hook.py`), the base adapter's context extraction
(`adapters/base.py`) and the three per-tool adapters
(`adapters/claude_code.py`, `adapters/cursor.py`, `adapters/gemini.py`).

Python values are modelled by the inductive `PyVal` (with `PyVal.none`
standing for Python `None`); dictionaries are association lists with
Python dict-lookup semantics.  Subprocess calls (`subprocess.run` of git
probes) are abstracted by a `ProbeResult` oracle per call site: `ok out`
is a zero-exit run with captured stdout, `fail` a non-zero exit, and
`exn` a raise of one of the exception classes the source catches
(`TimeoutExpired`, `FileNotFoundError`, `OSError`).  Fresh UUIDs,
timestamps and the adapter version string are supplied by an `Env`
record.  Adapter translation, which can raise on malformed input
(e.g. indexing a non-sequence), is modelled in `Except Unit`.
-/

/-- Model of a Python value as the adapters see it (JSON-shaped data). -/
inductive PyVal where
  | none
  | bool (b : Bool)
  | int (n : Int)
  | str (s : String)
  | list (xs : List PyVal)
  | dict (xs : List (String × PyVal))

/-- A Python dictionary with string keys, as an association list. -/
abbrev PyDict := List (String × PyVal)

/-- Python truthiness: `bool(v)`. -/
def PyVal.truthy : PyVal → Bool
  | .none => false
  | .bool b => b
  | .int n => n != 0
  | .str s => s != ""
  | .list xs => !xs.isEmpty
  | .dict xs => !xs.isEmpty

/-- `v is None`. -/
def PyVal.isNone : PyVal → Bool
  | .none => true
  | _ => false

/-- Python dictionary lookup: `d[k]` as an `Option`. -/
def pyLookup (k : String) : PyDict → Option PyVal
  | [] => Option.none
  | (k1, v) :: rest => if k1 = k then some v else pyLookup k rest

/-- Python `d.get(k, dflt)`. -/
def pyGetD (d : PyDict) (k : String) (dflt : PyVal) : PyVal :=
  (pyLookup k d).getD dflt

/-- Python `a or b`: the first operand if truthy, otherwise the second. -/
def pyOr (a b : PyVal) : PyVal :=
  if a.truthy then a else b

mutual

/-- Python `repr()` of a value: strings single-quoted, containers recursive. -/
def pyRepr : PyVal → String
  | .none => "None"
  | .bool b => if b then "True" else "False"
  | .int n => toString n
  | .str s => "\x27" ++ s ++ "\x27"
  | .list xs => "[" ++ pyReprList xs ++ "]"
  | .dict xs => "\x7b" ++ pyReprBinds xs ++ "\x7d"

/-- `repr` of the elements of a list, comma-joined. -/
def pyReprList : List PyVal → String
  | [] => ""
  | [x] => pyRepr x
  | x :: y :: xs => pyRepr x ++ ", " ++ pyReprList (y :: xs)

/-- `repr` of the entries of a dict, comma-joined. -/
def pyReprBinds : List (String × PyVal) → String
  | [] => ""
  | [(k, v)] => "\x27" ++ k ++ "\x27" ++ ": " ++ pyRepr v
  | (k, v) :: y :: xs =>
      "\x27" ++ k ++ "\x27" ++ ": " ++ pyRepr v ++ ", " ++ pyReprBinds (y :: xs)

end

/-- Python `str()` rendering (same as `repr` except bare strings). -/
def pyStr : PyVal → String
  | .str s => s
  | v => pyRepr v

/-- `EventType` enum from `schema/events.py` (values are the `.value` strings). -/
inductive EventType where
  | prompt_submit
  | tool_pre
  | tool_post
  | session_start
  | session_end
  | agent_thought
  | agent_response
  | file_read
  | file_edit
  | file_create
  | shell_pre
  | shell_post
deriving DecidableEq

/-- The `.value` string of an `EventType`. -/
def EventType.value : EventType → String
  | .prompt_submit => "prompt_submit"
  | .tool_pre => "tool_pre"
  | .tool_post => "tool_post"
  | .session_start => "session_start"
  | .session_end => "session_end"
  | .agent_thought => "agent_thought"
  | .agent_response => "agent_response"
  | .file_read => "file_read"
  | .file_edit => "file_edit"
  | .file_create => "file_create"
  | .shell_pre => "shell_pre"
  | .shell_post => "shell_post"

/-- `EventType(s)`: parse a `.value` string back to the enum (ValueError -> none). -/
def EventType.ofValue : String → Option EventType
  | "prompt_submit" => some .prompt_submit
  | "tool_pre" => some .tool_pre
  | "tool_post" => some .tool_post
  | "session_start" => some .session_start
  | "session_end" => some .session_end
  | "agent_thought" => some .agent_thought
  | "agent_response" => some .agent_response
  | "file_read" => some .file_read
  | "file_edit" => some .file_edit
  | "file_create" => some .file_create
  | "shell_pre" => some .shell_pre
  | "shell_post" => some .shell_post
  | _ => Option.none

/-- `Tool` enum from `schema/events.py`. -/
inductive Tool where
  | claude_code
  | cursor
  | gemini_cli
  | codex
  | windsurf
  | copilot
  | aider
  | continueDev
  | other
deriving DecidableEq

/-- The `.value` string of a `Tool`. -/
def Tool.value : Tool → String
  | .claude_code => "claude-code"
  | .cursor => "cursor"
  | .gemini_cli => "gemini-cli"
  | .codex => "codex"
  | .windsurf => "windsurf"
  | .copilot => "copilot"
  | .aider => "aider"
  | .continueDev => "continue"
  | .other => "other"

/-- `Tool(s)`: parse a `.value` string back to the enum (ValueError -> none). -/
def Tool.ofValue : String → Option Tool
  | "claude-code" => some .claude_code
  | "cursor" => some .cursor
  | "gemini-cli" => some .gemini_cli
  | "codex" => some .codex
  | "windsurf" => some .windsurf
  | "copilot" => some .copilot
  | "aider" => some .aider
  | "continue" => some .continueDev
  | "other" => some .other
  | _ => Option.none

theorem eventTypeOfValue_value (t : EventType) : EventType.ofValue t.value = some t := by
  cases t <;> rfl

theorem toolOfValue_value (t : Tool) : Tool.ofValue t.value = some t := by
  cases t <;> rfl

/-! ## Canonical event data model (`schema/events.py`, `schema/context.py`)

Optional fields annotated `Optional[...]` in the Python dataclasses are
modelled as `PyVal` with `PyVal.none` standing for an unset field (Python
`None` is itself the marker of absence); nested dataclass-valued fields are
`Option` of the corresponding structure. -/

/-- `"k": v` entry emitted only when the field is set (`if v is not None`). -/
def addIf (k : String) (v : PyVal) : PyDict :=
  if v.isNone then [] else [(k, v)]

/-- `GitContext` from `schema/context.py`. -/
structure GitContext where
  commit_hash : PyVal := .none
  commit_message : PyVal := .none
  commit_author : PyVal := .none
  commit_timestamp : PyVal := .none
  branch : PyVal := .none
  is_detached_head : PyVal := .none
  is_dirty : PyVal := .none
  staged_count : PyVal := .none
  unstaged_count : PyVal := .none
  untracked_count : PyVal := .none
  ahead_count : PyVal := .none
  behind_count : PyVal := .none
  upstream_branch : PyVal := .none
  remote_url : PyVal := .none

/-- `GitContext.to_dict`: asdict filtered of `None` values, field order. -/
def GitContext.to_dict (g : GitContext) : PyDict :=
  addIf "commit_hash" g.commit_hash ++ addIf "commit_message" g.commit_message ++
  addIf "commit_author" g.commit_author ++ addIf "commit_timestamp" g.commit_timestamp ++
  addIf "branch" g.branch ++ addIf "is_detached_head" g.is_detached_head ++
  addIf "is_dirty" g.is_dirty ++ addIf "staged_count" g.staged_count ++
  addIf "unstaged_count" g.unstaged_count ++ addIf "untracked_count" g.untracked_count ++
  addIf "ahead_count" g.ahead_count ++ addIf "behind_count" g.behind_count ++
  addIf "upstream_branch" g.upstream_branch ++ addIf "remote_url" g.remote_url

/-- The keyword names `GitContext(**d)` accepts. -/
def GitContext.field_names : List String :=
  ["commit_hash", "commit_message", "commit_author", "commit_timestamp",
   "branch", "is_detached_head", "is_dirty", "staged_count",
   "unstaged_count", "untracked_count", "ahead_count", "behind_count",
   "upstream_branch", "remote_url"]

/-- `GitContext(**d)`: every field defaults; unknown keywords raise. -/
def GitContext.fromKwargs (d : PyDict) : Option GitContext :=
  if d.all (fun kv => GitContext.field_names.contains kv.1) then
    some { commit_hash := pyGetD d "commit_hash" .none,
           commit_message := pyGetD d "commit_message" .none,
           commit_author := pyGetD d "commit_author" .none,
           commit_timestamp := pyGetD d "commit_timestamp" .none,
           branch := pyGetD d "branch" .none,
           is_detached_head := pyGetD d "is_detached_head" .none,
           is_dirty := pyGetD d "is_dirty" .none,
           staged_count := pyGetD d "staged_count" .none,
           unstaged_count := pyGetD d "unstaged_count" .none,
           untracked_count := pyGetD d "untracked_count" .none,
           ahead_count := pyGetD d "ahead_count" .none,
           behind_count := pyGetD d "behind_count" .none,
           upstream_branch := pyGetD d "upstream_branch" .none,
           remote_url := pyGetD d "remote_url" .none }
  else Option.none

/-- `WorkspaceContext` from `schema/context.py`. -/
structure WorkspaceContext where
  repo_name : PyVal := .none
  repo_path : PyVal := .none
  working_directory : PyVal := .none
  files_referenced : PyVal := .none

/-- `WorkspaceContext.to_dict`: asdict filtered of `None` values. -/
def WorkspaceContext.to_dict (w : WorkspaceContext) : PyDict :=
  addIf "repo_name" w.repo_name ++ addIf "repo_path" w.repo_path ++
  addIf "working_directory" w.working_directory ++
  addIf "files_referenced" w.files_referenced

/-- The keyword names `WorkspaceContext(**d)` accepts. -/
def WorkspaceContext.field_names : List String :=
  ["repo_name", "repo_path", "working_directory", "files_referenced"]

/-- `WorkspaceContext(**d)`. -/
def WorkspaceContext.fromKwargs (d : PyDict) : Option WorkspaceContext :=
  if d.all (fun kv => WorkspaceContext.field_names.contains kv.1) then
    some { repo_name := pyGetD d "repo_name" .none,
           repo_path := pyGetD d "repo_path" .none,
           working_directory := pyGetD d "working_directory" .none,
           files_referenced := pyGetD d "files_referenced" .none }
  else Option.none

/-- `PromptPayload` from `schema/events.py`. -/
structure PromptPayload where
  prompt : PyVal
  response_summary : PyVal := .none
  attachments : PyVal := .none

/-- `PromptPayload.to_dict`: `prompt` always, optionals when set. -/
def PromptPayload.to_dict (p : PromptPayload) : PyDict :=
  [("prompt", p.prompt)] ++ addIf "response_summary" p.response_summary ++
  addIf "attachments" p.attachments

/-- The keyword names `PromptPayload(**d)` accepts. -/
def PromptPayload.field_names : List String :=
  ["prompt", "response_summary", "attachments"]

/-- `PromptPayload(**d)`: `prompt` is required (TypeError when missing). -/
def PromptPayload.fromKwargs (d : PyDict) : Option PromptPayload :=
  if d.all (fun kv => PromptPayload.field_names.contains kv.1) then
    match pyLookup "prompt" d with
    | some pv => some { prompt := pv,
                        response_summary := pyGetD d "response_summary" .none,
                        attachments := pyGetD d "attachments" .none }
    | Option.none => Option.none
  else Option.none

/-- `ToolPayload` from `schema/events.py`. -/
structure ToolPayload where
  tool_name : PyVal
  tool_use_id : PyVal := .none
  input : PyVal := .none
  output : PyVal := .none
  success : PyVal := .none
  duration_ms : PyVal := .none
  error_message : PyVal := .none

/-- `ToolPayload.to_dict`: `tool_name` always, optionals when set. -/
def ToolPayload.to_dict (t : ToolPayload) : PyDict :=
  [("tool_name", t.tool_name)] ++ addIf "tool_use_id" t.tool_use_id ++
  addIf "input" t.input ++ addIf "output" t.output ++
  addIf "success" t.success ++ addIf "duration_ms" t.duration_ms ++
  addIf "error_message" t.error_message

/-- The keyword names `ToolPayload(**d)` accepts. -/
def ToolPayload.field_names : List String :=
  ["tool_name", "tool_use_id", "input", "output", "success",
   "duration_ms", "error_message"]

/-- `ToolPayload(**d)`: `tool_name` is required (TypeError when missing). -/
def ToolPayload.fromKwargs (d : PyDict) : Option ToolPayload :=
  if d.all (fun kv => ToolPayload.field_names.contains kv.1) then
    match pyLookup "tool_name" d with
    | some tn => some { tool_name := tn,
                        tool_use_id := pyGetD d "tool_use_id" .none,
                        input := pyGetD d "input" .none,
                        output := pyGetD d "output" .none,
                        success := pyGetD d "success" .none,
                        duration_ms := pyGetD d "duration_ms" .none,
                        error_message := pyGetD d "error_message" .none }
    | Option.none => Option.none
  else Option.none

/-- `SessionPayload` from `schema/events.py`. -/
structure SessionPayload where
  source : PyVal := .none
  reason : PyVal := .none

/-- `SessionPayload.to_dict`: both fields optional (may be empty). -/
def SessionPayload.to_dict (s : SessionPayload) : PyDict :=
  addIf "source" s.source ++ addIf "reason" s.reason

/-- The keyword names `SessionPayload(**d)` accepts. -/
def SessionPayload.field_names : List String := ["source", "reason"]

/-- `SessionPayload(**d)`. -/
def SessionPayload.fromKwargs (d : PyDict) : Option SessionPayload :=
  if d.all (fun kv => SessionPayload.field_names.contains kv.1) then
    some { source := pyGetD d "source" .none, reason := pyGetD d "reason" .none }
  else Option.none

/-- `CanonicalEvent` from `schema/events.py`. -/
structure CanonicalEvent where
  tool : Tool
  event_type : EventType
  event_id : String
  timestamp : String
  adapter_version : String
  session_id : PyVal := .none
  workspace : Option WorkspaceContext := Option.none
  git : Option GitContext := Option.none
  prompt : Option PromptPayload := Option.none
  tool_event : Option ToolPayload := Option.none
  session : Option SessionPayload := Option.none
  raw_event_type : PyVal := .none
  raw_event : PyVal := .none

/-- Serialize an optional nested object as a single-entry block. -/
def addObj (k : String) (toD : α → PyDict) : Option α → PyDict
  | Option.none => []
  | some x => [(k, PyVal.dict (toD x))]

/-- `CanonicalEvent.to_dict`: required fields, then non-`None` optionals. -/
def CanonicalEvent.to_dict (e : CanonicalEvent) : PyDict :=
  [("tool", PyVal.str e.tool.value),
   ("event_type", PyVal.str e.event_type.value),
   ("event_id", PyVal.str e.event_id),
   ("timestamp", PyVal.str e.timestamp),
   ("adapter_version", PyVal.str e.adapter_version)] ++
  addIf "session_id" e.session_id ++
  addObj "workspace" WorkspaceContext.to_dict e.workspace ++
  addObj "git" GitContext.to_dict e.git ++
  addObj "prompt" PromptPayload.to_dict e.prompt ++
  addObj "tool_event" ToolPayload.to_dict e.tool_event ++
  addObj "session" SessionPayload.to_dict e.session ++
  addIf "raw_event_type" e.raw_event_type ++
  addIf "raw_event" e.raw_event

/-- A required string-typed envelope field: `data[k]` (KeyError when
absent), kept only when it is a string, matching the declared field type
(the Python code would store a non-string unchecked; such a value never
arises from `to_dict`, and the typed model rejects it). -/
def reqStr (k : String) (d : PyDict) : Option String :=
  match pyLookup k d with
  | some (.str s) => some s
  | _ => Option.none

/-- `if k in data and data[k]: T(**data[k])` for a nested object: absent or
falsy value gives no object; a truthy non-dict value raises (`**` needs a
mapping), modelled as overall failure. -/
def parseObj (k : String) (fromK : PyDict → Option α) (d : PyDict) :
    Option (Option α) :=
  match pyLookup k d with
  | Option.none => some Option.none
  | some v =>
    if v.truthy then
      match v with
      | .dict vd => (fromK vd).map some
      | _ => Option.none
    else some Option.none

/-- `CanonicalEvent.from_dict` from `schema/events.py`: parse enums, nested
objects only when present and truthy, remaining fields via `data.get`. -/
def CanonicalEvent.from_dict (d : PyDict) : Option CanonicalEvent := do
  let toolV ← pyLookup "tool" d
  let tool ← match toolV with
    | .str s => Tool.ofValue s
    | _ => Option.none
  let etV ← pyLookup "event_type" d
  let event_type ← match etV with
    | .str s => EventType.ofValue s
    | _ => Option.none
  let event_id ← reqStr "event_id" d
  let timestamp ← reqStr "timestamp" d
  let adapter_version ← reqStr "adapter_version" d
  let workspace ← parseObj "workspace" WorkspaceContext.fromKwargs d
  let git ← parseObj "git" GitContext.fromKwargs d
  let prompt ← parseObj "prompt" PromptPayload.fromKwargs d
  let tool_event ← parseObj "tool_event" ToolPayload.fromKwargs d
  let session ← parseObj "session" SessionPayload.fromKwargs d
  some { tool := tool, event_type := event_type, event_id := event_id,
         timestamp := timestamp, adapter_version := adapter_version,
         session_id := pyGetD d "session_id" .none,
         workspace := workspace, git := git, prompt := prompt,
         tool_event := tool_event, session := session,
         raw_event_type := pyGetD d "raw_event_type" .none,
         raw_event := pyGetD d "raw_event" .none }

/-! ## Context extraction (`adapters/base.py`)

`subprocess.run(["git", ...], cwd=..., timeout=2)` is abstracted by a
`ProbeResult` per call site.  `extract_git_context` runs its probes inside
one `try` whose `except (TimeoutExpired, FileNotFoundError, OSError,
ValueError)` returns `None` for the whole context; `_extract_workspace`
wraps only its own probe in a local `try ... pass`. -/

/-- Outcome of one `subprocess.run` call of a git probe. -/
inductive ProbeResult where
  | ok (stdout : String)
  | fail
  | exn
deriving DecidableEq

/-- The eight probes `extract_git_context` runs, in source order. -/
structure GitProbes where
  toplevel : ProbeResult
  hash : ProbeResult
  msg : ProbeResult
  author : ProbeResult
  branch : ProbeResult
  status : ProbeResult
  remote : ProbeResult
  tracking : ProbeResult

/-- A probe step under the surrounding `try`: `exn` raises (whole
extraction returns `None`), otherwise the optional captured stdout. -/
def probeOut : ProbeResult → Option (Option String)
  | .exn => Option.none
  | .fail => some Option.none
  | .ok s => some (some s)

/-- Python `s.split()`: split on whitespace runs, dropping empty pieces. -/
def pySplitWS (s : String) : List String :=
  (s.split Char.isWhitespace).filter (fun p => p ≠ "")

/-- The porcelain status lines: `stdout.strip().split("\n")` when the
stripped output is non-empty, else `[]`. -/
def statusLines (stdout : String) : List String :=
  if stdout.trim ≠ "" then (stdout.trim).splitOn "\n" else []

/-- One pass of the status-counting loop body over an accumulator
`(staged, unstaged, untracked)`: lines shorter than two characters are
skipped; `?` in the index position counts untracked, any other non-blank
index character counts staged, and a worktree character outside
`{blank, ?}` counts unstaged. -/
def statusStep (acc : Nat × Nat × Nat) (line : String) : Nat × Nat × Nat :=
  match line.data with
  | c0 :: c1 :: _ =>
    let acc1 :=
      if c0 = '?' then (acc.1, acc.2.1, acc.2.2 + 1)
      else if c0 ≠ ' ' then (acc.1 + 1, acc.2.1, acc.2.2)
      else acc
    if c1 ≠ ' ' ∧ c1 ≠ '?' then (acc1.1, acc1.2.1 + 1, acc1.2.2) else acc1
  | _ => acc

/-- The `(staged, unstaged, untracked)` counts of a list of status lines. -/
def statusCounts (lines : List String) : Nat × Nat × Nat :=
  lines.foldl statusStep (0, 0, 0)

/-- The captured stdout of a non-raising probe (`none` = non-zero exit). -/
def okOut : ProbeResult → Option String
  | .ok s => some s
  | _ => Option.none

/-- One probe under the surrounding `try`: a raise (`probeOut` = none)
aborts the whole extraction with `None`; otherwise the rest of the body
continues with the probe's optional stdout. -/
def probeStep (r : ProbeResult) (k : Option String → Option GitContext) :
    Option GitContext :=
  match probeOut r with
  | Option.none => Option.none
  | some o => k o

/-- `if result.returncode == 0: field = stdout.strip()` (commit hash,
commit message, commit author, remote URL). -/
def strField (o : Option String) : PyVal :=
  match o with
  | some s => .str s.trim
  | Option.none => .none

/-- `result.branch = branch if branch else None` from the stripped
branch-probe stdout. -/
def branchF (o : Option String) : PyVal :=
  match o with
  | some s => if s.trim ≠ "" then .str s.trim else .none
  | Option.none => .none

/-- `result.is_detached_head = not bool(branch)`. -/
def detachedF (o : Option String) : PyVal :=
  match o with
  | some s => .bool (s.trim = "")
  | Option.none => .none

/-- `result.is_dirty = len(lines) > 0` from the status-probe stdout. -/
def dirtyF (o : Option String) : PyVal :=
  match o with
  | some s => .bool ((statusLines s).length > 0)
  | Option.none => .none

/-- `result.staged_count` from the status-probe stdout. -/
def stagedF (o : Option String) : PyVal :=
  match o with
  | some s => .int (statusCounts (statusLines s)).1
  | Option.none => .none

/-- `result.unstaged_count` from the status-probe stdout. -/
def unstagedF (o : Option String) : PyVal :=
  match o with
  | some s => .int (statusCounts (statusLines s)).2.1
  | Option.none => .none

/-- `result.untracked_count` from the status-probe stdout. -/
def untrackedF (o : Option String) : PyVal :=
  match o with
  | some s => .int (statusCounts (statusLines s)).2.2
  | Option.none => .none

/-- `BaseAdapter.extract_git_context`, sequential over the probe oracle.
The probes run in source order inside one `try` whose
`except (TimeoutExpired, FileNotFoundError, OSError, ValueError)` returns
`None` for the whole context (`probeStep`); a non-zero exit of a probe
merely skips that probe's field assignments.  A `ValueError` from `int()`
on the ahead/behind output likewise loses the whole context. -/
def extract_git_context (working_dir : PyVal) (p : GitProbes) : Option GitContext :=
  if ¬ working_dir.truthy then Option.none
  else
    probeStep p.toplevel (fun tl =>
    if tl.isNone then Option.none else
    probeStep p.hash (fun hashOut =>
    let commit_hash := strField hashOut
    probeStep p.msg (fun msgOut =>
    let commit_message := strField msgOut
    probeStep p.author (fun authorOut =>
    let commit_author := strField authorOut
    probeStep p.branch (fun branchOut =>
    let branch := branchF branchOut
    let is_detached_head := detachedF branchOut
    probeStep p.status (fun statusOut =>
    let is_dirty := dirtyF statusOut
    let staged_count := stagedF statusOut
    let unstaged_count := unstagedF statusOut
    let untracked_count := untrackedF statusOut
    probeStep p.remote (fun remoteOut =>
    let remote_url := strField remoteOut
    probeStep p.tracking (fun trackingOut =>
    match trackingOut with
    | some out =>
      match pySplitWS out.trim with
      | [a, b] =>
        -- behind = int(parts[0]); ahead = int(parts[1]); a ValueError
        -- falls to the enclosing except, losing the whole context
        match a.toInt?, b.toInt? with
        | some bc, some ac =>
          some { commit_hash := commit_hash, commit_message := commit_message,
                 commit_author := commit_author, branch := branch,
                 is_detached_head := is_detached_head, is_dirty := is_dirty,
                 staged_count := staged_count, unstaged_count := unstaged_count,
                 untracked_count := untracked_count, remote_url := remote_url,
                 behind_count := .int bc, ahead_count := .int ac }
        | _, _ => Option.none
      | _ =>
        some { commit_hash := commit_hash, commit_message := commit_message,
               commit_author := commit_author, branch := branch,
               is_detached_head := is_detached_head, is_dirty := is_dirty,
               staged_count := staged_count, unstaged_count := unstaged_count,
               untracked_count := untracked_count, remote_url := remote_url }
    | Option.none =>
      some { commit_hash := commit_hash, commit_message := commit_message,
             commit_author := commit_author, branch := branch,
             is_detached_head := is_detached_head, is_dirty := is_dirty,
             staged_count := staged_count, unstaged_count := unstaged_count,
             untracked_count := untracked_count,
             remote_url := remote_url }))))))))

/-- `pathlib.Path(p).name`: the last real path component (empty and `.`
segments are dropped by pathlib's normalization). -/
def pathName (p : String) : String :=
  ((p.splitOn "/").filter (fun seg => seg ≠ "" ∧ seg ≠ ".")).getLastD ""

/-- `BaseAdapter._extract_workspace`.  `context.get(...)` on a non-dict
`context` value raises (AttributeError), as does `Path()` on a non-string
`repoPath`; those leave the adapter as exceptions.  The git `rev-parse
--show-toplevel` probe is wrapped in its own `try ... pass`, so its
failure or timeout only skips the repo-name fallback. -/
def extract_workspace (e : PyDict) (wsProbe : ProbeResult) :
    Except Unit (Option WorkspaceContext) :=
  match pyGetD e "context" (.dict []) with
  | .dict ctx =>
    let cwd := pyOr (pyGetD e "cwd" .none) (pyGetD ctx "workingDirectory" .none)
    if ¬ cwd.truthy ∧ ctx.isEmpty then .ok Option.none
    else
      let repoName0 := pyGetD ctx "repoName" .none
      let repoPath0 := pyGetD ctx "repoPath" .none
      if ¬ repoName0.truthy ∧ repoPath0.truthy then
        match repoPath0 with
        | .str p =>
          .ok (some { repo_name := .str (pathName p), repo_path := repoPath0,
                      working_directory := cwd,
                      files_referenced := pyGetD ctx "filesReferenced" .none })
        | _ => .error ()  -- Path() of a non-string raises TypeError
      else if ¬ repoName0.truthy ∧ cwd.truthy then
        match wsProbe with
        | .ok out =>
          let p := out.trim
          .ok (some { repo_name := .str (pathName p), repo_path := .str p,
                      working_directory := cwd,
                      files_referenced := pyGetD ctx "filesReferenced" .none })
        | _ =>
          .ok (some { repo_name := repoName0, repo_path := repoPath0,
                      working_directory := cwd,
                      files_referenced := pyGetD ctx "filesReferenced" .none })
      else
        .ok (some { repo_name := repoName0, repo_path := repoPath0,
                    working_directory := cwd,
                    files_referenced := pyGetD ctx "filesReferenced" .none })
  | _ => .error ()  -- `.get` on a non-dict context raises AttributeError

/-- Per-translation environment: the generated UUID and UTC timestamp,
the adapter version stamp, and the raw-event debug flag. -/
structure Env where
  event_id : String
  timestamp : String
  adapter_version : String
  include_raw_event : Bool

/-- The pure part of `BaseAdapter.create_base_event`, given the already
extracted workspace context: common envelope fields, the git context from
`cwd`/`workingDirectory`, and the raw-event echo under the debug flag. -/
def baseEvent (tool : Tool) (event_type : EventType) (e : PyDict)
    (rawName : PyVal) (env : Env) (gp : GitProbes)
    (ws : Option WorkspaceContext) : CanonicalEvent :=
  let working_dir := pyOr (pyGetD e "cwd" .none) (pyGetD e "workingDirectory" .none)
  { tool := tool, event_type := event_type, event_id := env.event_id,
    timestamp := env.timestamp, adapter_version := env.adapter_version,
    session_id := pyGetD e "session_id" .none,
    workspace := ws,
    git := extract_git_context working_dir gp,
    raw_event_type := rawName,
    raw_event := if env.include_raw_event then .dict e else .none }

/-! ## Tool detection (`scripts/promptconduit_hook.py`) -/

/-- `CLAUDE_CODE_EVENTS` from the hook script. -/
def CLAUDE_CODE_EVENTS : List String :=
  ["UserPromptSubmit", "PreToolUse", "PostToolUse", "SessionStart",
   "SessionEnd", "Stop", "SubagentStop", "PermissionRequest",
   "Notification", "PreCompact"]

/-- `CURSOR_EVENTS` from the hook script. -/
def CURSOR_EVENTS : List String :=
  ["beforeSubmitPrompt", "beforeShellExecution", "afterShellExecution",
   "beforeMCPExecution", "afterMCPExecution", "beforeReadFile",
   "afterFileEdit", "afterAgentResponse", "afterAgentThought", "stop",
   "beforeTabFileRead", "afterTabFileEdit"]

/-- `GEMINI_EVENTS` from the hook script. -/
def GEMINI_EVENTS : List String :=
  ["BeforeAgent", "AfterAgent", "BeforeModel", "AfterModel", "BeforeTool",
   "AfterTool", "BeforeToolSelection", "PreCompress"]

/-- Whether a value can be a member of a set of strings: only hashable
values may be tested (`x in set` raises TypeError on lists/dicts). -/
def pyHashable : PyVal → Bool
  | .list _ => false
  | .dict _ => false
  | _ => true

/-- `v in s` for a set of event-name strings. -/
def nameMem (v : PyVal) (s : List String) : Bool :=
  match v with
  | .str x => s.contains x
  | _ => false

/-- The event name the detector resolves:
`native_event.get("hook_event_name") or native_event.get("type", "")`. -/
def detectName (e : PyDict) : PyVal :=
  pyOr (pyGetD e "hook_event_name" .none) (pyGetD e "type" (.str ""))

/-- `detect_tool` from the hook script.  `envTool` models the
`PROMPTCONDUIT_TOOL` environment variable (`none` = unset); a truthy
override is returned lower-cased before any inspection.  A truthy
`cursor_version` marker short-circuits to cursor.  Set membership of an
unhashable event name raises (TypeError), modelled as `.error`. -/
def detect_tool (envTool : Option String) (e : PyDict) :
    Except Unit (Option String) :=
  match envTool with
  | some t =>
    if t = "" then detectBody e else .ok (some t.toLower)
  | Option.none => detectBody e
where
  detectBody (e : PyDict) : Except Unit (Option String) :=
    let event_name := detectName e
    if (pyGetD e "cursor_version" .none).truthy then .ok (some "cursor")
    else if ¬ pyHashable event_name then .error ()
    else if nameMem event_name CURSOR_EVENTS then .ok (some "cursor")
    else if nameMem event_name GEMINI_EVENTS then .ok (some "gemini")
    else if nameMem event_name CLAUDE_CODE_EVENTS then .ok (some "claude-code")
    else .ok Option.none

/-! ## Claude Code adapter (`adapters/claude_code.py`) -/

/-- `ClaudeCodeAdapter.EVENT_MAPPING`. -/
def claudeMapping : String → Option EventType
  | "UserPromptSubmit" => some .prompt_submit
  | "PreToolUse" => some .tool_pre
  | "PostToolUse" => some .tool_post
  | "SessionStart" => some .session_start
  | "SessionEnd" => some .session_end
  | "Stop" => some .agent_response
  | "SubagentStop" => some .agent_response
  | "PermissionRequest" => some .tool_pre
  | "Notification" => some .agent_thought
  | _ => Option.none

/-- `EVENT_MAPPING.get(name)` on the (possibly non-string) event name. -/
def pyEventType (mapping : String → Option EventType) : PyVal → Option EventType
  | .str s => mapping s
  | _ => Option.none

/-- The event name the Claude Code adapter resolves:
`native_event.get("type") or native_event.get("hook_event_name", "")`. -/
def claudeName (e : PyDict) : PyVal :=
  pyOr (pyGetD e "type" .none) (pyGetD e "hook_event_name" (.str ""))

/-- `ClaudeCodeAdapter._translate_prompt`. -/
def claudePrompt (e : PyDict) : PromptPayload :=
  { prompt := pyGetD e "prompt" (.str ""),
    response_summary := pyGetD e "responseSummary" .none,
    attachments := .none }

/-- Success and error-message inference shared by the Claude Code and
Gemini tool-post translation: a dict response fails iff it carries a
truthy `error` or `is_error`; the message falls back from `error` to
`message` to `str()` of the whole response.  Non-dict responses succeed. -/
def inferSuccess (tool_response : PyVal) : PyVal × PyVal :=
  match tool_response with
  | .dict d =>
    let has_error := (pyGetD d "error" .none).truthy || (pyGetD d "is_error" .none).truthy
    if has_error then
      (.bool false,
       pyOr (pyGetD d "error" .none)
         (pyOr (pyGetD d "message" .none) (.str (pyStr tool_response))))
    else (.bool true, .none)
  | _ => (.bool true, .none)

/-- `ClaudeCodeAdapter._translate_tool`. -/
def claudeTool (e : PyDict) (event_type : EventType) : ToolPayload :=
  let tool_response := pyGetD e "tool_response" (.dict [])
  let se : PyVal × PyVal :=
    if event_type = .tool_post then inferSuccess tool_response
    else (.none, .none)
  { tool_name := pyGetD e "tool_name" (.str "unknown"),
    tool_use_id := pyGetD e "tool_use_id" .none,
    input := pyGetD e "tool_input" .none,
    output := if event_type = .tool_post then tool_response else .none,
    success := se.1,
    error_message := se.2 }

/-- `ClaudeCodeAdapter._translate_session`. -/
def claudeSession (e : PyDict) (event_type : EventType) : SessionPayload :=
  { source := if event_type = .session_start then pyGetD e "source" .none else .none,
    reason := if event_type = .session_end then pyGetD e "reason" .none else .none }

/-- `ClaudeCodeAdapter.translate_event`: mapping miss skips; otherwise the
base envelope is built and exactly one payload-building branch runs
(prompt / tool / session; agent events add no payload). -/
def claudeTranslate (env : Env) (gp : GitProbes) (wp : ProbeResult)
    (e : PyDict) : Except Unit (Option CanonicalEvent) :=
  let name := claudeName e
  match pyEventType claudeMapping name with
  | Option.none => .ok Option.none
  | some ety =>
    match extract_workspace e wp with
    | .error u => .error u
    | .ok ws =>
      let base := baseEvent .claude_code ety e name env gp ws
      .ok (some (match ety with
        | .prompt_submit => { base with prompt := some (claudePrompt e) }
        | .tool_pre => { base with tool_event := some (claudeTool e .tool_pre) }
        | .tool_post => { base with tool_event := some (claudeTool e .tool_post) }
        | .session_start => { base with session := some (claudeSession e .session_start) }
        | .session_end => { base with session := some (claudeSession e .session_end) }
        | _ => base))

/-! ## Cursor adapter (`adapters/cursor.py`) -/

/-- `CursorAdapter.EVENT_MAPPING`. -/
def cursorMapping : String → Option EventType
  | "beforeSubmitPrompt" => some .prompt_submit
  | "beforeShellExecution" => some .shell_pre
  | "afterShellExecution" => some .shell_post
  | "beforeMCPExecution" => some .tool_pre
  | "afterMCPExecution" => some .tool_post
  | "beforeReadFile" => some .file_read
  | "afterFileEdit" => some .file_edit
  | "afterAgentResponse" => some .agent_response
  | "afterAgentThought" => some .agent_thought
  | "stop" => some .session_end
  | "beforeTabFileRead" => some .file_read
  | "afterTabFileEdit" => some .file_edit
  | _ => Option.none

/-- The event name the Cursor adapter resolves. -/
def cursorName (e : PyDict) : PyVal :=
  pyGetD e "hook_event_name" (.str "")

/-- Python `x[0]`: head of a list, first character of a non-empty string;
anything else raises (TypeError/KeyError). -/
def pyIndex0 : PyVal → Except Unit PyVal
  | .list (x :: _) => .ok x
  | .str s =>
    match s.data with
    | c :: _ => .ok (.str c.toString)
    | [] => .error ()
  | _ => .error ()

/-- Python iteration for the attachments comprehension: lists yield their
elements, strings their characters, dicts their keys; other values raise. -/
def pyIter : PyVal → Except Unit (List PyVal)
  | .list xs => .ok xs
  | .str s => .ok (s.data.map (fun c => .str c.toString))
  | .dict xs => .ok (xs.map (fun kv => .str kv.1))
  | _ => .error ()

/-- `CursorAdapter._translate_prompt`: attachments are reduced to
`type`/`path` pairs, keeping only dict-shaped entries; an empty result
list leaves the field unset. -/
def cursorPrompt (e : PyDict) : Except Unit PromptPayload :=
  let raw_attachments := pyGetD e "attachments" (.list [])
  match (if raw_attachments.truthy then (pyIter raw_attachments).map some
         else .ok Option.none : Except Unit (Option (List PyVal))) with
  | .error u => .error u
  | .ok items =>
    let attachments : PyVal :=
      match items with
      | some xs =>
        let kept := xs.filterMap (fun a => match a with
          | .dict d => some (PyVal.dict
              [("type", pyGetD d "type" .none), ("path", pyGetD d "path" .none)])
          | _ => Option.none)
        if kept.isEmpty then .none else .list kept
      | Option.none => .none
    .ok { prompt := pyGetD e "prompt" (.str ""), attachments := attachments }

/-- `CursorAdapter._translate_shell`: post events report unconditional
success with only a wrapped stdout; no error inference. -/
def cursorShell (e : PyDict) (event_type : EventType) : ToolPayload :=
  let is_post := event_type = .shell_post
  { tool_name := .str "shell",
    input := .dict [("command", pyGetD e "command" .none),
                    ("cwd", pyGetD e "cwd" .none)],
    output := if is_post then .dict [("stdout", pyGetD e "output" .none)] else .none,
    success := if is_post then .bool true else .none,
    duration_ms := pyGetD e "duration" .none }

/-- `CursorAdapter._translate_mcp`: post events report unconditional
success; no error inference. -/
def cursorMcp (e : PyDict) (event_type : EventType) : ToolPayload :=
  let is_post := event_type = .tool_post
  { tool_name := pyGetD e "tool_name" (.str "mcp"),
    input := pyGetD e "params" .none,
    output := if is_post then pyGetD e "result" .none else .none,
    success := if is_post then .bool true else .none,
    duration_ms := pyGetD e "duration" .none }

/-- `CursorAdapter._translate_file_op`. -/
def cursorFileOp (e : PyDict) (event_type : EventType) : ToolPayload :=
  let is_edit := event_type = .file_edit
  { tool_name := .str (if is_edit then "file_edit" else "file_read"),
    input := .dict ([("file_path", pyGetD e "file_path" .none)] ++
      (if ¬ is_edit then [("contents", pyGetD e "contents" .none)] else [])),
    output := if is_edit then .dict [("edits", pyGetD e "edits" (.list []))] else .none }

/-- The `workspace_roots` handling of `CursorAdapter.translate_event`:
when `native_event.get("workspace_roots", [])` is truthy and a workspace
context was derived, its first entry (`workspace_roots[0]`, which raises
on a non-indexable value) overrides `repo_path` and seeds
`working_directory` when the derived one is falsy. -/
def cursorRootsOverride (e : PyDict) (base1 : CanonicalEvent) :
    Except Unit CanonicalEvent :=
  let roots := pyGetD e "workspace_roots" (.list [])
  if roots.truthy then
    match base1.workspace with
    | some w =>
      match pyIndex0 roots with
      | .error u => .error u
      | .ok r0 =>
        .ok { base1 with workspace := some { w with
          repo_path := r0,
          working_directory :=
            if w.working_directory.truthy then w.working_directory else r0 } }
    | Option.none => .ok base1
  else .ok base1

/-- `CursorAdapter.translate_event`: session id from `conversation_id`
falling back to `generation_id`; the `workspace_roots` override; then
exactly one payload branch (note: the `stop`/session-end mapping has no
payload branch, so it populates no payload slot). -/
def cursorTranslate (env : Env) (gp : GitProbes) (wp : ProbeResult)
    (e : PyDict) : Except Unit (Option CanonicalEvent) :=
  let name := cursorName e
  match pyEventType cursorMapping name with
  | Option.none => .ok Option.none
  | some ety =>
    match extract_workspace e wp with
    | .error u => .error u
    | .ok ws =>
      let base0 := baseEvent .cursor ety e name env gp ws
      let base1 := { base0 with
        session_id := pyOr (pyGetD e "conversation_id" .none)
                           (pyGetD e "generation_id" .none) }
      match cursorRootsOverride e base1 with
      | .error u => .error u
      | .ok base2 =>
        match ety with
        | .prompt_submit =>
          match cursorPrompt e with
          | .error u => .error u
          | .ok p => .ok (some { base2 with prompt := some p })
        | .shell_pre => .ok (some { base2 with tool_event := some (cursorShell e .shell_pre) })
        | .shell_post => .ok (some { base2 with tool_event := some (cursorShell e .shell_post) })
        | .tool_pre => .ok (some { base2 with tool_event := some (cursorMcp e .tool_pre) })
        | .tool_post => .ok (some { base2 with tool_event := some (cursorMcp e .tool_post) })
        | .file_read => .ok (some { base2 with tool_event := some (cursorFileOp e .file_read) })
        | .file_edit => .ok (some { base2 with tool_event := some (cursorFileOp e .file_edit) })
        | _ => .ok (some base2)

/-! ## Gemini adapter (`adapters/gemini.py`) -/

/-- `GeminiAdapter.EVENT_MAPPING`. -/
def geminiMapping : String → Option EventType
  | "SessionStart" => some .session_start
  | "SessionEnd" => some .session_end
  | "BeforeAgent" => some .prompt_submit
  | "AfterAgent" => some .agent_response
  | "BeforeModel" => some .agent_thought
  | "AfterModel" => some .agent_thought
  | "BeforeTool" => some .tool_pre
  | "AfterTool" => some .tool_post
  | "BeforeToolSelection" => some .tool_pre
  | "PreCompress" => some .agent_thought
  | "Notification" => some .agent_thought
  | _ => Option.none

/-- `GeminiAdapter.TOOL_NAME_MAPPING` with its `get(name, name)` fallback. -/
def geminiToolName : String → String
  | "read_file" => "Read"
  | "write_file" => "Write"
  | "replace" => "Edit"
  | "read_many_files" => "Read"
  | "list_directory" => "Glob"
  | "glob" => "Glob"
  | "search_file_content" => "Grep"
  | "run_shell_command" => "Bash"
  | "google_web_search" => "WebSearch"
  | "web_fetch" => "WebFetch"
  | "write_todos" => "TodoWrite"
  | "save_memory" => "Memory"
  | "delegate_to_agent" => "Task"
  | s => s

/-- The event name the Gemini adapter resolves. -/
def geminiName (e : PyDict) : PyVal :=
  pyGetD e "hook_event_name" (.str "")

/-- `GeminiAdapter._translate_prompt`: prompt text from `prompt`, else
`user_message`, else `message`, else `""`. -/
def geminiPrompt (e : PyDict) : PromptPayload :=
  { prompt := pyOr (pyOr (pyOr (pyGetD e "prompt" .none)
      (pyGetD e "user_message" .none)) (pyGetD e "message" .none)) (.str ""),
    response_summary := pyGetD e "response_summary" .none }

/-- `GeminiAdapter._translate_tool`: tool names renormalized through
`TOOL_NAME_MAPPING` (non-string names fall through unchanged); success
inference on `tool_output or output` mirrors the Claude Code check. -/
def geminiTool (e : PyDict) (event_type : EventType) : ToolPayload :=
  let gemini_tool_name := pyGetD e "tool_name" (.str "unknown")
  let normalized : PyVal := match gemini_tool_name with
    | .str s => .str (geminiToolName s)
    | v => v
  let is_post := event_type = .tool_post
  let tool_output := pyOr (pyGetD e "tool_output" .none) (pyGetD e "output" .none)
  let se : PyVal × PyVal :=
    if is_post then inferSuccess tool_output else (.none, .none)
  { tool_name := normalized,
    tool_use_id := pyGetD e "tool_use_id" .none,
    input := pyOr (pyGetD e "tool_input" .none) (pyGetD e "input" .none),
    output := if is_post then tool_output else .none,
    success := se.1,
    error_message := se.2,
    duration_ms := pyGetD e "duration_ms" .none }

/-- `GeminiAdapter._translate_session`. -/
def geminiSession (e : PyDict) (event_type : EventType) : SessionPayload :=
  { source := if event_type = .session_start then pyGetD e "source" .none else .none,
    reason := if event_type = .session_end then pyGetD e "reason" .none else .none }

/-- `GeminiAdapter.translate_event`. -/
def geminiTranslate (env : Env) (gp : GitProbes) (wp : ProbeResult)
    (e : PyDict) : Except Unit (Option CanonicalEvent) :=
  let name := geminiName e
  match pyEventType geminiMapping name with
  | Option.none => .ok Option.none
  | some ety =>
    match extract_workspace e wp with
    | .error u => .error u
    | .ok ws =>
      let base := baseEvent .gemini_cli ety e name env gp ws
      .ok (some (match ety with
        | .prompt_submit => { base with prompt := some (geminiPrompt e) }
        | .tool_pre => { base with tool_event := some (geminiTool e .tool_pre) }
        | .tool_post => { base with tool_event := some (geminiTool e .tool_post) }
        | .session_start => { base with session := some (geminiSession e .session_start) }
        | .session_end => { base with session := some (geminiSession e .session_end) }
        | _ => base))

/-! ## Claims -/

/-- Claim C7: every git status porcelain line of length at least two is
counted as untracked iff its index (first) character is a question mark,
as staged iff its index character is neither blank nor a question mark,
and as unstaged iff its worktree (second) character is outside the set of
blank and question mark; a single line can fall in several buckets. -/
theorem C7_status_classification (line : String) (c0 c1 : Char)
    (rest : List Char) (h : line.data = c0 :: c1 :: rest) :
    statusCounts [line] =
      ((if c0 ≠ '?' ∧ c0 ≠ ' ' then 1 else 0),
       (if c1 ≠ ' ' ∧ c1 ≠ '?' then 1 else 0),
       (if c0 = '?' then 1 else 0)) := by
  simp only [statusCounts, List.foldl, statusStep, h]
  by_cases h0 : c0 = '?' <;> by_cases h1 : c0 = ' ' <;>
    by_cases h2 : c1 = ' ' <;> by_cases h3 : c1 = '?' <;>
    simp_all

/-- Witness for C7 at the four concrete lines of the specification:
`"M "` only staged, `" M"` only unstaged, `"??"` only untracked, `"MM"`
both staged and unstaged. -/
theorem C7_status_classification_witness :
    statusCounts ["M "] = (1, 0, 0) ∧ statusCounts [" M"] = (0, 1, 0) ∧
    statusCounts ["??"] = (0, 0, 1) ∧ statusCounts ["MM"] = (1, 1, 0) := by
  refine ⟨?_, ?_, ?_, ?_⟩
  · have := C7_status_classification "M " 'M' ' ' [] rfl
    simpa using this
  · have := C7_status_classification " M" ' ' 'M' [] rfl
    simpa using this
  · have := C7_status_classification "??" '?' '?' [] rfl
    simpa using this
  · have := C7_status_classification "MM" 'M' 'M' [] rfl
    simpa using this

/-- Counterexample to claim C5: an event with no event name at all but a
truthy `cursor_version` marker is detected as cursor, not as unknown —
the marker check short-circuits before the event name is consulted. -/
theorem C5_counterexample :
    detect_tool Option.none [("cursor_version", PyVal.str "1.0")] =
      .ok (some "cursor") ∧
    pyGetD [("cursor_version", PyVal.str "1.0")] "hook_event_name" .none = .none ∧
    pyGetD [("cursor_version", PyVal.str "1.0")] "type" (.str "") = .str "" :=
  ⟨rfl, rfl, rfl⟩

/-- Claim C5 as amended: with no forced-tool override, an event whose
name fields are absent, null or the empty string fails detection —
provided the event does not carry a truthy `cursor_version` marker, which
would short-circuit detection to cursor regardless of the name. -/
theorem C5_empty_name_fails_detection (e : PyDict)
    (hh : pyGetD e "hook_event_name" .none = .none ∨
          pyGetD e "hook_event_name" .none = .str "")
    (ht : pyGetD e "type" (.str "") = .none ∨
          pyGetD e "type" (.str "") = .str "")
    (hc : (pyGetD e "cursor_version" .none).truthy = false) :
    detect_tool Option.none e = .ok Option.none := by
  have hname : detectName e = pyGetD e "type" (.str "") := by
    rcases hh with h | h <;> simp [detectName, pyOr, h, PyVal.truthy]
  simp only [detect_tool, detect_tool.detectBody, hname, hc]
  rcases ht with h | h <;>
    simp [h, PyVal.truthy, pyHashable, nameMem, CURSOR_EVENTS, GEMINI_EVENTS,
      CLAUDE_CODE_EVENTS]

/-- Witness for the amended C5 at the empty event. -/
theorem C5_empty_name_fails_detection_witness :
    detect_tool Option.none [] = .ok Option.none :=
  C5_empty_name_fails_detection [] (Or.inl rfl) (Or.inr rfl) rfl

/-- Counterexample to claim C9: an event carrying both name fields with
different values — an empty `type` and a non-empty `hook_event_name` —
makes the adapter fall back to `hook_event_name` (Python `or` skips the
falsy empty string), so detection and translation resolve the same name,
not different ones. -/
theorem C9_counterexample :
    pyLookup "type" [("type", PyVal.str ""), ("hook_event_name", PyVal.str "PreToolUse")] =
      some (.str "") ∧
    pyLookup "hook_event_name"
        [("type", PyVal.str ""), ("hook_event_name", PyVal.str "PreToolUse")] =
      some (.str "PreToolUse") ∧
    claudeName [("type", PyVal.str ""), ("hook_event_name", PyVal.str "PreToolUse")] =
      detectName [("type", PyVal.str ""), ("hook_event_name", PyVal.str "PreToolUse")] :=
  ⟨rfl, rfl, rfl⟩

/-- Claim C9 as amended: the Claude Code adapter resolves the event name
preferring the `type` field, the detector preferring `hook_event_name`
— so whenever both fields are present with truthy (non-empty) and
different values, translation resolves the `type` value, detection the
`hook_event_name` value, and the two resolved names differ. -/
theorem C9_name_priority (e : PyDict) (tv hv : PyVal)
    (hT : pyLookup "type" e = some tv)
    (hH : pyLookup "hook_event_name" e = some hv)
    (htv : tv.truthy = true) (hhv : hv.truthy = true) (hne : tv ≠ hv) :
    claudeName e = tv ∧ detectName e = hv ∧ claudeName e ≠ detectName e := by
  have h1 : claudeName e = tv := by
    simp [claudeName, pyGetD, pyOr, hT, hH, htv]
  have h2 : detectName e = hv := by
    simp [detectName, pyGetD, pyOr, hT, hH, hhv]
  exact ⟨h1, h2, by rw [h1, h2]; exact hne⟩

/-- Witness for the amended C9: with `type = "PostToolUse"` and
`hook_event_name = "PreToolUse"`, the adapter resolves the former and the
detector the latter. -/
theorem C9_name_priority_witness :
    claudeName [("type", PyVal.str "PostToolUse"), ("hook_event_name", PyVal.str "PreToolUse")] =
      .str "PostToolUse" ∧
    detectName [("type", PyVal.str "PostToolUse"), ("hook_event_name", PyVal.str "PreToolUse")] =
      .str "PreToolUse" ∧
    claudeName [("type", PyVal.str "PostToolUse"), ("hook_event_name", PyVal.str "PreToolUse")] ≠
      detectName [("type", PyVal.str "PostToolUse"), ("hook_event_name", PyVal.str "PreToolUse")] :=
  C9_name_priority _ (.str "PostToolUse") (.str "PreToolUse") rfl rfl rfl rfl
    (by simp)

/-- Claim C10: `SessionStart`, `SessionEnd` and `Notification` are in the
Gemini adapter's mapping table but not in the Gemini (or Cursor)
detection set; they are in the Claude Code detection set, so with no
override and no cursor marker, detection routes every event bearing one
of these names to claude-code, never to the Gemini adapter. -/
theorem C10_session_names_route_to_claude :
    (geminiMapping "SessionStart" = some .session_start ∧
     geminiMapping "SessionEnd" = some .session_end ∧
     geminiMapping "Notification" = some .agent_thought) ∧
    (GEMINI_EVENTS.contains "SessionStart" = false ∧
     GEMINI_EVENTS.contains "SessionEnd" = false ∧
     GEMINI_EVENTS.contains "Notification" = false) ∧
    (CLAUDE_CODE_EVENTS.contains "SessionStart" = true ∧
     CLAUDE_CODE_EVENTS.contains "SessionEnd" = true ∧
     CLAUDE_CODE_EVENTS.contains "Notification" = true) ∧
    ∀ e : PyDict,
      (detectName e = .str "SessionStart" ∨ detectName e = .str "SessionEnd" ∨
       detectName e = .str "Notification") →
      (pyGetD e "cursor_version" .none).truthy = false →
      detect_tool Option.none e = .ok (some "claude-code") := by
  refine ⟨⟨rfl, rfl, rfl⟩, ⟨by decide, by decide, by decide⟩,
    ⟨by decide, by decide, by decide⟩, ?_⟩
  intro e hn hc
  simp only [detect_tool, detect_tool.detectBody, hc]
  rcases hn with h | h | h <;>
    simp [h, pyHashable, nameMem, CURSOR_EVENTS, GEMINI_EVENTS, CLAUDE_CODE_EVENTS]

/-- Witness for C10 at a bare `SessionStart` event. -/
theorem C10_session_names_route_to_claude_witness :
    detect_tool Option.none [("hook_event_name", PyVal.str "SessionStart")] =
      .ok (some "claude-code") :=
  C10_session_names_route_to_claude.2.2.2
    [("hook_event_name", PyVal.str "SessionStart")] (Or.inl rfl) rfl

/-- Inversion of a successful Claude Code translation: the resolved name
is mapped, the workspace extraction succeeded, and the event is the base
envelope with the payload branch of the mapped type applied. -/
theorem claudeTranslate_inv (env : Env) (gp : GitProbes) (wp : ProbeResult)
    (e : PyDict) (ev : CanonicalEvent)
    (hT : claudeTranslate env gp wp e = .ok (some ev)) :
    ∃ ety ws, pyEventType claudeMapping (claudeName e) = some ety ∧
      extract_workspace e wp = .ok ws ∧
      ev = (let base := baseEvent .claude_code ety e (claudeName e) env gp ws
            match ety with
            | .prompt_submit => { base with prompt := some (claudePrompt e) }
            | .tool_pre => { base with tool_event := some (claudeTool e .tool_pre) }
            | .tool_post => { base with tool_event := some (claudeTool e .tool_post) }
            | .session_start => { base with session := some (claudeSession e .session_start) }
            | .session_end => { base with session := some (claudeSession e .session_end) }
            | _ => base) := by
  simp only [claudeTranslate] at hT
  split at hT
  · simp at hT
  · split at hT
    · simp at hT
    · simp only [Except.ok.injEq, Option.some.injEq] at hT
      exact ⟨_, _, by assumption, by assumption, hT.symm⟩

/-- Inversion of a successful Gemini translation. -/
theorem geminiTranslate_inv (env : Env) (gp : GitProbes) (wp : ProbeResult)
    (e : PyDict) (ev : CanonicalEvent)
    (hT : geminiTranslate env gp wp e = .ok (some ev)) :
    ∃ ety ws, pyEventType geminiMapping (geminiName e) = some ety ∧
      extract_workspace e wp = .ok ws ∧
      ev = (let base := baseEvent .gemini_cli ety e (geminiName e) env gp ws
            match ety with
            | .prompt_submit => { base with prompt := some (geminiPrompt e) }
            | .tool_pre => { base with tool_event := some (geminiTool e .tool_pre) }
            | .tool_post => { base with tool_event := some (geminiTool e .tool_post) }
            | .session_start => { base with session := some (geminiSession e .session_start) }
            | .session_end => { base with session := some (geminiSession e .session_end) }
            | _ => base) := by
  simp only [geminiTranslate] at hT
  split at hT
  · simp at hT
  · split at hT
    · simp at hT
    · simp only [Except.ok.injEq, Option.some.injEq] at hT
      exact ⟨_, _, by assumption, by assumption, hT.symm⟩

/-- Claim C4: for every Claude Code tool-post translation, if the native
`tool_response` value is a dict then the resulting ToolPayload fails iff
the dict carries a truthy `error` or `is_error` field, and on failure the
error message is the `error` value if truthy, else the `message` value if
truthy, else the string rendering of the whole response dict (on success
it is absent); a non-dict `tool_response` yields unconditional success
with no error message. -/
theorem C4_claude_tool_post_inference (env : Env) (gp : GitProbes)
    (wp : ProbeResult) (e : PyDict) (ev : CanonicalEvent) (tp : ToolPayload)
    (hT : claudeTranslate env gp wp e = .ok (some ev))
    (hPost : ev.event_type = .tool_post)
    (hTp : ev.tool_event = some tp) :
    (∀ d : List (String × PyVal),
      pyGetD e "tool_response" (.dict []) = .dict d →
      (tp.success = .bool (!((pyGetD d "error" .none).truthy ||
                             (pyGetD d "is_error" .none).truthy)) ∧
       (((pyGetD d "error" .none).truthy || (pyGetD d "is_error" .none).truthy) = true →
         tp.error_message =
           (if (pyGetD d "error" .none).truthy then pyGetD d "error" .none
            else if (pyGetD d "message" .none).truthy then pyGetD d "message" .none
            else .str (pyStr (.dict d)))) ∧
       (((pyGetD d "error" .none).truthy || (pyGetD d "is_error" .none).truthy) = false →
         tp.error_message = .none))) ∧
    ((∀ d : List (String × PyVal), pyGetD e "tool_response" (.dict []) ≠ .dict d) →
      tp.success = .bool true ∧ tp.error_message = .none) := by
  obtain ⟨ety, ws, hm, hw, hev⟩ := claudeTranslate_inv env gp wp e ev hT
  subst hev
  cases ety <;> simp [baseEvent] at hPost hTp
  -- only the tool_post branch survives; tp is the translated tool payload
  subst hTp
  constructor
  · intro d hd
    refine ⟨?_, ?_, ?_⟩
    · by_cases herr : ((pyGetD d "error" .none).truthy ||
          (pyGetD d "is_error" .none).truthy) = true
      · simp [claudeTool, hd, inferSuccess, herr]
      · simp only [Bool.or_eq_true, not_or, Bool.not_eq_true] at herr
        simp [claudeTool, hd, inferSuccess, herr.1, herr.2]
    · intro herr
      simp [claudeTool, hd, inferSuccess, herr, pyOr]
    · intro herr
      rw [Bool.or_eq_false_iff] at herr
      simp [claudeTool, hd, inferSuccess, herr.1, herr.2]
  · intro hnd
    rcases hr : pyGetD e "tool_response" (.dict []) with _ | b | n | s | xs | dxs
    · simp [claudeTool, hr, inferSuccess]
    · simp [claudeTool, hr, inferSuccess]
    · simp [claudeTool, hr, inferSuccess]
    · simp [claudeTool, hr, inferSuccess]
    · simp [claudeTool, hr, inferSuccess]
    · exact absurd hr (hnd dxs)

/-- Witness for C4 at specification scenario 2: a Claude Code tool-post
event whose native response carries `is_error: true` and
`message: "boom"` yields `success = false`, `error_message = "boom"`. -/
theorem C4_claude_tool_post_inference_witness :
    (claudeTool
      [("hook_event_name", PyVal.str "PostToolUse"),
       ("tool_response", PyVal.dict
          [("is_error", PyVal.bool true), ("message", PyVal.str "boom")])]
      .tool_post).success = .bool false ∧
    (claudeTool
      [("hook_event_name", PyVal.str "PostToolUse"),
       ("tool_response", PyVal.dict
          [("is_error", PyVal.bool true), ("message", PyVal.str "boom")])]
      .tool_post).error_message = .str "boom" := by
  have h := C4_claude_tool_post_inference ⟨"id0", "ts0", "0.1.0", false⟩
    ⟨.fail, .fail, .fail, .fail, .fail, .fail, .fail, .fail⟩ .fail
    [("hook_event_name", PyVal.str "PostToolUse"),
     ("tool_response", PyVal.dict
        [("is_error", PyVal.bool true), ("message", PyVal.str "boom")])]
    _ _ rfl rfl rfl
  exact ⟨(h.1 _ rfl).1.trans (by rfl), ((h.1 _ rfl).2.1 rfl).trans (by rfl)⟩

/-- The roots override never changes the envelope's event type or its
payload slots, only the workspace. -/
theorem cursorRootsOverride_fields (e : PyDict) (b ov : CanonicalEvent)
    (h : cursorRootsOverride e b = .ok ov) :
    ov.event_type = b.event_type ∧ ov.prompt = b.prompt ∧
    ov.tool_event = b.tool_event ∧ ov.session = b.session ∧
    ov.session_id = b.session_id ∧ ov.git = b.git := by
  simp only [cursorRootsOverride] at h
  split at h
  · split at h
    · split at h
      · exact absurd h (by simp)
      · simp only [Except.ok.injEq] at h
        subst h
        exact ⟨rfl, rfl, rfl, rfl, rfl, rfl⟩
    · simp only [Except.ok.injEq] at h
      subst h
      exact ⟨rfl, rfl, rfl, rfl, rfl, rfl⟩
  · simp only [Except.ok.injEq] at h
    subst h
    exact ⟨rfl, rfl, rfl, rfl, rfl, rfl⟩

/-- Inversion of a successful Cursor translation: the name is mapped, the
workspace extraction and the roots override succeeded, and the event is
the overridden envelope with the payload branch of the mapped type
applied — no branch exists for the session-end (`stop`) mapping. -/
theorem cursorTranslate_inv (env : Env) (gp : GitProbes) (wp : ProbeResult)
    (e : PyDict) (ev : CanonicalEvent)
    (hT : cursorTranslate env gp wp e = .ok (some ev)) :
    ∃ ety base2,
      pyEventType cursorMapping (cursorName e) = some ety ∧
      (∃ ws, extract_workspace e wp = .ok ws ∧
        cursorRootsOverride e
          { baseEvent .cursor ety e (cursorName e) env gp ws with
            session_id := pyOr (pyGetD e "conversation_id" .none)
                               (pyGetD e "generation_id" .none) } = .ok base2) ∧
      base2.event_type = ety ∧ base2.prompt = Option.none ∧
      base2.tool_event = Option.none ∧ base2.session = Option.none ∧
      (match ety with
       | .prompt_submit =>
           ∃ p, cursorPrompt e = .ok p ∧ ev = { base2 with prompt := some p }
       | .shell_pre => ev = { base2 with tool_event := some (cursorShell e .shell_pre) }
       | .shell_post => ev = { base2 with tool_event := some (cursorShell e .shell_post) }
       | .tool_pre => ev = { base2 with tool_event := some (cursorMcp e .tool_pre) }
       | .tool_post => ev = { base2 with tool_event := some (cursorMcp e .tool_post) }
       | .file_read => ev = { base2 with tool_event := some (cursorFileOp e .file_read) }
       | .file_edit => ev = { base2 with tool_event := some (cursorFileOp e .file_edit) }
       | _ => ev = base2) := by
  simp only [cursorTranslate] at hT
  split at hT
  · simp at hT
  next ety hm =>
    split at hT
    · simp at hT
    next ws hw =>
      split at hT
      · simp at hT
      next base2 hov =>
        obtain ⟨hety, hprompt, htool, hsession, _, _⟩ :=
          cursorRootsOverride_fields _ _ _ hov
        refine ⟨ety, base2, hm, ⟨ws, hw, hov⟩,
          hety.trans (by simp [baseEvent]),
          hprompt.trans (by simp [baseEvent]),
          htool.trans (by simp [baseEvent]),
          hsession.trans (by simp [baseEvent]), ?_⟩
        cases ety <;> simp only [] at hT ⊢
        case prompt_submit =>
          split at hT
          · simp at hT
          next p hp =>
            simp only [Except.ok.injEq, Option.some.injEq] at hT
            exact ⟨p, hp, hT.symm⟩
        all_goals
          simp only [Except.ok.injEq, Option.some.injEq] at hT
          exact hT.symm

/-- Claim C6: every Cursor shell-post and MCP-tool-post translation
produces a ToolPayload with `success = true` unconditionally and no
error message, regardless of the native event's content — no error
inference is performed. -/
theorem C6_cursor_post_unconditional_success (env : Env) (gp : GitProbes)
    (wp : ProbeResult) (e : PyDict) (ev : CanonicalEvent) (tp : ToolPayload)
    (hT : cursorTranslate env gp wp e = .ok (some ev))
    (hPost : ev.event_type = .shell_post ∨ ev.event_type = .tool_post)
    (hTp : ev.tool_event = some tp) :
    tp.success = .bool true ∧ tp.error_message = .none := by
  obtain ⟨ety, base2, hm, _, hety, hprompt, htool, hsession, hdisp⟩ :=
    cursorTranslate_inv env gp wp e ev hT
  cases ety
  case prompt_submit =>
    obtain ⟨p, hp, hev⟩ := hdisp
    subst hev
    simp only [show ({ base2 with prompt := some p } : CanonicalEvent).event_type =
      base2.event_type from rfl, hety] at hPost
    simp at hPost
  case shell_post =>
    subst hdisp
    simp only [show ({ base2 with tool_event := some (cursorShell e .shell_post) } :
      CanonicalEvent).tool_event = some (cursorShell e .shell_post) from rfl,
      Option.some.injEq] at hTp
    subst hTp
    exact ⟨rfl, rfl⟩
  case tool_post =>
    subst hdisp
    simp only [show ({ base2 with tool_event := some (cursorMcp e .tool_post) } :
      CanonicalEvent).tool_event = some (cursorMcp e .tool_post) from rfl,
      Option.some.injEq] at hTp
    subst hTp
    exact ⟨rfl, rfl⟩
  all_goals
    first
    | (subst hdisp
       simp only [CanonicalEvent.event_type] at hPost
       simp [hety] at hPost)
    | (subst hdisp
       rw [hety] at hPost
       simp at hPost)

/-- Witness for C6 at a concrete `afterShellExecution` event. -/
theorem C6_cursor_post_unconditional_success_witness :
    (cursorShell [("hook_event_name", PyVal.str "afterShellExecution")]
      .shell_post).success = .bool true ∧
    (cursorShell [("hook_event_name", PyVal.str "afterShellExecution")]
      .shell_post).error_message = .none :=
  C6_cursor_post_unconditional_success ⟨"id0", "ts0", "0.1.0", false⟩
    ⟨.fail, .fail, .fail, .fail, .fail, .fail, .fail, .fail⟩ .fail
    [("hook_event_name", PyVal.str "afterShellExecution")] _ _
    rfl (Or.inl rfl) rfl

/-- Counterexample to claim C1: the Cursor adapter's `stop` event maps to
`session_end`, but the payload dispatch has no session branch, so the
translated event populates no payload slot at all — the session slot is
empty. -/
theorem C1_counterexample :
    cursorTranslate ⟨"id0", "ts0", "0.1.0", false⟩
      ⟨.fail, .fail, .fail, .fail, .fail, .fail, .fail, .fail⟩ .fail
      [("hook_event_name", PyVal.str "stop")] =
      .ok (some { tool := .cursor, event_type := .session_end,
                  event_id := "id0", timestamp := "ts0",
                  adapter_version := "0.1.0", session_id := .none,
                  workspace := Option.none, git := Option.none,
                  prompt := Option.none, tool_event := Option.none,
                  session := Option.none,
                  raw_event_type := .str "stop", raw_event := .none }) :=
  rfl

/-- Exactly the payload slot matching the event type's category is
populated (prompt events the prompt slot, tool and shell and file events
the tool slot, session events the session slot, agent events none). -/
def payloadSlotsOk (ev : CanonicalEvent) : Prop :=
  match ev.event_type with
  | .prompt_submit =>
      ev.prompt.isSome ∧ ev.tool_event = Option.none ∧ ev.session = Option.none
  | .tool_pre | .tool_post | .shell_pre | .shell_post
  | .file_read | .file_edit | .file_create =>
      ev.prompt = Option.none ∧ ev.tool_event.isSome ∧ ev.session = Option.none
  | .session_start | .session_end =>
      ev.prompt = Option.none ∧ ev.tool_event = Option.none ∧ ev.session.isSome
  | .agent_thought | .agent_response =>
      ev.prompt = Option.none ∧ ev.tool_event = Option.none ∧ ev.session = Option.none

/-- The Cursor variant: its `session_end` (`stop`) translation populates
no payload slot at all. -/
def cursorPayloadSlotsOk (ev : CanonicalEvent) : Prop :=
  match ev.event_type with
  | .prompt_submit =>
      ev.prompt.isSome ∧ ev.tool_event = Option.none ∧ ev.session = Option.none
  | .tool_pre | .tool_post | .shell_pre | .shell_post
  | .file_read | .file_edit | .file_create =>
      ev.prompt = Option.none ∧ ev.tool_event.isSome ∧ ev.session = Option.none
  | .session_start =>
      ev.prompt = Option.none ∧ ev.tool_event = Option.none ∧ ev.session.isSome
  | .session_end | .agent_thought | .agent_response =>
      ev.prompt = Option.none ∧ ev.tool_event = Option.none ∧ ev.session = Option.none

/-- A mapped event type comes from a string name in the mapping table. -/
theorem pyEventType_inv (m : String → Option EventType) (v : PyVal)
    (ety : EventType) (h : pyEventType m v = some ety) :
    ∃ s, v = .str s ∧ m s = some ety := by
  cases v <;> simp [pyEventType] at h
  exact ⟨_, rfl, h⟩

/-- The range of the Claude Code mapping table. -/
theorem claudeMapping_range (s : String) (ety : EventType)
    (h : claudeMapping s = some ety) :
    ety = .prompt_submit ∨ ety = .tool_pre ∨ ety = .tool_post ∨
    ety = .session_start ∨ ety = .session_end ∨ ety = .agent_response ∨
    ety = .agent_thought := by
  unfold claudeMapping at h
  split at h <;> simp_all

/-- The range of the Gemini mapping table. -/
theorem geminiMapping_range (s : String) (ety : EventType)
    (h : geminiMapping s = some ety) :
    ety = .prompt_submit ∨ ety = .tool_pre ∨ ety = .tool_post ∨
    ety = .session_start ∨ ety = .session_end ∨ ety = .agent_response ∨
    ety = .agent_thought := by
  unfold geminiMapping at h
  split at h <;> simp_all

/-- The range of the Cursor mapping table: no `session_start` and no
`file_create`. -/
theorem cursorMapping_range (s : String) (ety : EventType)
    (h : cursorMapping s = some ety) :
    ety ≠ .session_start ∧ ety ≠ .file_create := by
  unfold cursorMapping at h
  split at h <;>
    first
      | (injection h with h; subst h; simp)
      | simp_all

/-- Claim C1 as amended: for every translated event, exactly the payload
slot matching the event type's category is populated, for the Claude Code
and Gemini adapters; the Cursor adapter satisfies the same invariant
except that its `stop` -> `session_end` translation leaves all three
payload slots empty. -/
theorem C1_payload_slot_invariant :
    (∀ (env : Env) (gp : GitProbes) (wp : ProbeResult) (e : PyDict)
       (ev : CanonicalEvent),
       claudeTranslate env gp wp e = .ok (some ev) → payloadSlotsOk ev) ∧
    (∀ (env : Env) (gp : GitProbes) (wp : ProbeResult) (e : PyDict)
       (ev : CanonicalEvent),
       geminiTranslate env gp wp e = .ok (some ev) → payloadSlotsOk ev) ∧
    (∀ (env : Env) (gp : GitProbes) (wp : ProbeResult) (e : PyDict)
       (ev : CanonicalEvent),
       cursorTranslate env gp wp e = .ok (some ev) → cursorPayloadSlotsOk ev) := by
  refine ⟨?_, ?_, ?_⟩
  · intro env gp wp e ev hT
    obtain ⟨ety, ws, hm, _, hev⟩ := claudeTranslate_inv env gp wp e ev hT
    obtain ⟨s, _, hs⟩ := pyEventType_inv _ _ _ hm
    have hr := claudeMapping_range s ety hs
    subst hev
    cases ety <;>
      first
        | exact absurd hr (by decide)
        | simp [payloadSlotsOk, baseEvent]
  · intro env gp wp e ev hT
    obtain ⟨ety, ws, hm, _, hev⟩ := geminiTranslate_inv env gp wp e ev hT
    obtain ⟨s, _, hs⟩ := pyEventType_inv _ _ _ hm
    have hr := geminiMapping_range s ety hs
    subst hev
    cases ety <;>
      first
        | exact absurd hr (by decide)
        | simp [payloadSlotsOk, baseEvent]
  · intro env gp wp e ev hT
    obtain ⟨ety, base2, hm, _, hety, hp, ht, hs, hdisp⟩ :=
      cursorTranslate_inv env gp wp e ev hT
    obtain ⟨s, _, hms⟩ := pyEventType_inv _ _ _ hm
    have hr := cursorMapping_range s ety hms
    cases ety
    case prompt_submit =>
      obtain ⟨p, _, hev⟩ := hdisp
      subst hev
      simp [cursorPayloadSlotsOk, hety, hp, ht, hs]
    case session_start => simp at hr
    case file_create => simp at hr
    all_goals
      subst hdisp
      simp [cursorPayloadSlotsOk, hety, hp, ht, hs]

/-- Witness for C1 at three concrete events, one per adapter: a Claude
Code `SessionStart`, a Gemini `AfterTool` and a Cursor
`beforeSubmitPrompt`. -/
theorem C1_payload_slot_invariant_witness :
    payloadSlotsOk
      { tool := .claude_code, event_type := .session_start,
        event_id := "i", timestamp := "t", adapter_version := "v",
        session := some { source := .none, reason := .none },
        raw_event_type := .str "SessionStart" } ∧
    payloadSlotsOk
      { tool := .gemini_cli, event_type := .tool_post,
        event_id := "i", timestamp := "t", adapter_version := "v",
        tool_event := some { tool_name := .str "unknown",
                             success := .bool true },
        raw_event_type := .str "AfterTool" } ∧
    cursorPayloadSlotsOk
      { tool := .cursor, event_type := .prompt_submit,
        event_id := "i", timestamp := "t", adapter_version := "v",
        prompt := some { prompt := .str "" },
        raw_event_type := .str "beforeSubmitPrompt" } :=
  ⟨C1_payload_slot_invariant.1 ⟨"i", "t", "v", false⟩
      ⟨.fail, .fail, .fail, .fail, .fail, .fail, .fail, .fail⟩ .fail
      [("hook_event_name", PyVal.str "SessionStart")] _ rfl,
   C1_payload_slot_invariant.2.1 ⟨"i", "t", "v", false⟩
      ⟨.fail, .fail, .fail, .fail, .fail, .fail, .fail, .fail⟩ .fail
      [("hook_event_name", PyVal.str "AfterTool")] _ rfl,
   C1_payload_slot_invariant.2.2 ⟨"i", "t", "v", false⟩
      ⟨.fail, .fail, .fail, .fail, .fail, .fail, .fail, .fail⟩ .fail
      [("hook_event_name", PyVal.str "beforeSubmitPrompt")] _ rfl⟩

/-- A raise inside a probe aborts the whole extraction. -/
theorem probeStep_exn (k : Option String → Option GitContext) :
    probeStep .exn k = Option.none :=
  rfl

/-- `probeStep (.ok s)` continues with the captured stdout. -/
theorem probeStep_ok (s : String) (k : Option String → Option GitContext) :
    probeStep (.ok s) k = k (some s) :=
  rfl

/-- A non-raising probe continues with its optional stdout. -/
theorem probeStep_ne_exn (r : ProbeResult) (h : r ≠ .exn)
    (k : Option String → Option GitContext) :
    probeStep r k = k (okOut r) := by
  cases r <;> simp_all [probeStep, probeOut, okOut]

/-- A probe step whose continuation always aborts, aborts. -/
theorem probeStep_none_of (r : ProbeResult)
    (k : Option String → Option GitContext) (h : ∀ o, k o = Option.none) :
    probeStep r k = Option.none := by
  cases r <;> simp [probeStep, probeOut, h]

/-- `behind_count` as a function of the tracking probe's stdout alone. -/
def behindF (o : Option String) : PyVal :=
  match o with
  | some s =>
    match pySplitWS s.trim with
    | [a, _] =>
      match a.toInt? with
      | some n => .int n
      | Option.none => .none
    | _ => .none
  | Option.none => .none

/-- `ahead_count` as a function of the tracking probe's stdout alone. -/
def aheadF (o : Option String) : PyVal :=
  match o with
  | some s =>
    match pySplitWS s.trim with
    | [_, b] =>
      match b.toInt? with
      | some n => .int n
      | Option.none => .none
    | _ => .none
  | Option.none => .none

/-- The tracking probe's output parses without a `ValueError` from
`int()` (vacuous when the probe failed or its output is not two words). -/
def trackingParses (o : Option String) : Prop :=
  match o with
  | some s =>
    match pySplitWS s.trim with
    | [a, b] => a.toInt?.isSome ∧ b.toInt?.isSome
    | _ => True
  | Option.none => True

/-- Counterexample to claim C3: a run in which the top-level check and
every probe succeed except the ahead/behind probe, which times out,
yields no GitContext at all — the timeout is caught by the one
`try`/`except` wrapping the whole extraction, so every other probe's
field is lost, not just ahead/behind. -/
theorem C3_counterexample :
    extract_git_context (.str "/repo")
      ⟨.ok "/repo", .ok "abc123", .ok "msg", .ok "amy", .ok "main",
       .ok " M f.py", .ok "git@example:r.git", .exn⟩ = Option.none :=
  rfl

/-- Claim C3 as amended, in three parts.  (1) Provided the top-level
check succeeds and no probe fails exceptionally (no timeout, missing
binary, or unparseable ahead/behind count), each field of the extracted
GitContext is a function of its own probe's outcome alone, so a non-zero
exit of any single probe leaves only that probe's fields unset.  (2) An
exceptional failure (timeout, missing binary) of any probe makes the
whole GitContext absent.  (3) Malformed ahead/behind output — a
two-word output with a non-integer word, raising `ValueError` in
`int()` — likewise makes the whole GitContext absent. -/
theorem C3_probe_independence :
    (∀ (wd : PyVal) (p : GitProbes) (s : String),
      wd.truthy = true → p.toplevel = .ok s →
      p.hash ≠ .exn → p.msg ≠ .exn → p.author ≠ .exn → p.branch ≠ .exn →
      p.status ≠ .exn → p.remote ≠ .exn → p.tracking ≠ .exn →
      trackingParses (okOut p.tracking) →
      extract_git_context wd p = some
        { commit_hash := strField (okOut p.hash),
          commit_message := strField (okOut p.msg),
          commit_author := strField (okOut p.author),
          branch := branchF (okOut p.branch),
          is_detached_head := detachedF (okOut p.branch),
          is_dirty := dirtyF (okOut p.status),
          staged_count := stagedF (okOut p.status),
          unstaged_count := unstagedF (okOut p.status),
          untracked_count := untrackedF (okOut p.status),
          remote_url := strField (okOut p.remote),
          behind_count := behindF (okOut p.tracking),
          ahead_count := aheadF (okOut p.tracking) }) ∧
    (∀ (wd : PyVal) (p : GitProbes) (s : String),
      wd.truthy = true → p.toplevel = .ok s →
      (p.hash = .exn ∨ p.msg = .exn ∨ p.author = .exn ∨ p.branch = .exn ∨
       p.status = .exn ∨ p.remote = .exn ∨ p.tracking = .exn) →
      extract_git_context wd p = Option.none) ∧
    (∀ (wd : PyVal) (p : GitProbes) (s : String),
      wd.truthy = true → p.toplevel = .ok s →
      p.hash ≠ .exn → p.msg ≠ .exn → p.author ≠ .exn → p.branch ≠ .exn →
      p.status ≠ .exn → p.remote ≠ .exn → p.tracking ≠ .exn →
      ¬ trackingParses (okOut p.tracking) →
      extract_git_context wd p = Option.none) := by
  refine ⟨?_, ?_, ?_⟩
  · intro wd p s hwd htl h1 h2 h3 h4 h5 h6 h7 hpar
    rw [extract_git_context, if_neg (by simp [hwd]), htl, probeStep_ok]
    simp only [Option.isNone_some, Bool.false_eq_true, if_false,
      probeStep_ne_exn _ h1, probeStep_ne_exn _ h2, probeStep_ne_exn _ h3,
      probeStep_ne_exn _ h4, probeStep_ne_exn _ h5, probeStep_ne_exn _ h6,
      probeStep_ne_exn _ h7]
    revert hpar
    generalize okOut p.tracking = o7
    intro hpar
    cases o7 with
    | none => simp [behindF, aheadF]
    | some s7 =>
      rcases hsp : pySplitWS s7.trim with _ | ⟨a, _ | ⟨b, _ | ⟨c, rest⟩⟩⟩
      · simp [behindF, aheadF, hsp]
      · simp [behindF, aheadF, hsp]
      · simp only [trackingParses, hsp] at hpar
        obtain ⟨ha, hb⟩ := hpar
        obtain ⟨na, hna⟩ := Option.isSome_iff_exists.mp ha
        obtain ⟨nb, hnb⟩ := Option.isSome_iff_exists.mp hb
        simp [behindF, aheadF, hsp, hna, hnb]
      · simp [behindF, aheadF, hsp]
  · intro wd p s hwd htl hex
    rw [extract_git_context, if_neg (by simp [hwd]), htl, probeStep_ok]
    simp only [Option.isNone_some, Bool.false_eq_true, if_false]
    rcases hex with h | h | h | h | h | h | h
    · rw [h]
      exact probeStep_exn _
    · refine probeStep_none_of _ _ (fun o1 => ?_)
      dsimp only
      rw [h]
      exact probeStep_exn _
    · refine probeStep_none_of _ _ (fun o1 => ?_)
      dsimp only
      refine probeStep_none_of _ _ (fun o2 => ?_)
      dsimp only
      rw [h]
      exact probeStep_exn _
    · refine probeStep_none_of _ _ (fun o1 => ?_)
      dsimp only
      refine probeStep_none_of _ _ (fun o2 => ?_)
      dsimp only
      refine probeStep_none_of _ _ (fun o3 => ?_)
      dsimp only
      rw [h]
      exact probeStep_exn _
    · refine probeStep_none_of _ _ (fun o1 => ?_)
      dsimp only
      refine probeStep_none_of _ _ (fun o2 => ?_)
      dsimp only
      refine probeStep_none_of _ _ (fun o3 => ?_)
      dsimp only
      refine probeStep_none_of _ _ (fun o4 => ?_)
      dsimp only
      rw [h]
      exact probeStep_exn _
    · refine probeStep_none_of _ _ (fun o1 => ?_)
      dsimp only
      refine probeStep_none_of _ _ (fun o2 => ?_)
      dsimp only
      refine probeStep_none_of _ _ (fun o3 => ?_)
      dsimp only
      refine probeStep_none_of _ _ (fun o4 => ?_)
      dsimp only
      refine probeStep_none_of _ _ (fun o5 => ?_)
      dsimp only
      rw [h]
      exact probeStep_exn _
    · refine probeStep_none_of _ _ (fun o1 => ?_)
      dsimp only
      refine probeStep_none_of _ _ (fun o2 => ?_)
      dsimp only
      refine probeStep_none_of _ _ (fun o3 => ?_)
      dsimp only
      refine probeStep_none_of _ _ (fun o4 => ?_)
      dsimp only
      refine probeStep_none_of _ _ (fun o5 => ?_)
      dsimp only
      refine probeStep_none_of _ _ (fun o6 => ?_)
      dsimp only
      rw [h]
      exact probeStep_exn _

  · intro wd p s hwd htl h1 h2 h3 h4 h5 h6 h7 hbad
    rw [extract_git_context, if_neg (by simp [hwd]), htl, probeStep_ok]
    simp only [Option.isNone_some, Bool.false_eq_true, if_false,
      probeStep_ne_exn _ h1, probeStep_ne_exn _ h2, probeStep_ne_exn _ h3,
      probeStep_ne_exn _ h4, probeStep_ne_exn _ h5, probeStep_ne_exn _ h6,
      probeStep_ne_exn _ h7]
    revert hbad
    generalize okOut p.tracking = o7
    intro hbad
    cases o7 with
    | none => exact absurd trivial hbad
    | some s7 =>
      rcases hsp : pySplitWS s7.trim with _ | ⟨a, _ | ⟨b, _ | ⟨c, rest⟩⟩⟩
      · exact absurd (by simp [trackingParses, hsp]) hbad
      · exact absurd (by simp [trackingParses, hsp]) hbad
      · cases ha : a.toInt? with
        | none => simp [hsp, ha]
        | some na =>
          cases hb : b.toInt? with
          | none => simp [hsp, ha, hb]
          | some nb =>
            exact absurd (by simp [trackingParses, hsp, ha, hb]) hbad
      · exact absurd (by simp [trackingParses, hsp]) hbad

/-- Witness for the amended C3: with only the ahead/behind probe failing
by non-zero exit, every other field is populated and only ahead/behind
are absent. -/
theorem C3_probe_independence_witness :
    extract_git_context (.str "/repo")
      ⟨.ok "/repo", .ok "abc123", .ok "msg", .ok "amy", .ok "main",
       .ok " M f.py", .ok "git@example:r.git", .fail⟩ = some
      { commit_hash := .str ("abc123".trim),
        commit_message := .str ("msg".trim),
        commit_author := .str ("amy".trim),
        branch := branchF (some "main"),
        is_detached_head := detachedF (some "main"),
        is_dirty := dirtyF (some " M f.py"),
        staged_count := stagedF (some " M f.py"),
        unstaged_count := unstagedF (some " M f.py"),
        untracked_count := untrackedF (some " M f.py"),
        remote_url := .str ("git@example:r.git".trim),
        behind_count := .none, ahead_count := .none } := by
  have h := C3_probe_independence.1 (.str "/repo")
    ⟨.ok "/repo", .ok "abc123", .ok "msg", .ok "amy", .ok "main",
     .ok " M f.py", .ok "git@example:r.git", .fail⟩ "/repo"
    rfl rfl (by simp) (by simp) (by simp) (by simp) (by simp) (by simp)
    (by simp) trivial
  exact h.trans rfl

/-- Counterexample to claim C8: a Cursor event with a mapped name and a
non-empty `workspace_roots` list but no other workspace source (no cwd,
no context) translates with no workspace context at all — the override
runs only when a workspace was already derived, so `repo_path` is not
set to the first root. -/
theorem C8_counterexample :
    cursorTranslate ⟨"id0", "ts0", "0.1.0", false⟩
      ⟨.fail, .fail, .fail, .fail, .fail, .fail, .fail, .fail⟩ .fail
      [("hook_event_name", PyVal.str "beforeSubmitPrompt"),
       ("workspace_roots", PyVal.list [.str "/a"])] =
      .ok (some { tool := .cursor, event_type := .prompt_submit,
                  event_id := "id0", timestamp := "ts0",
                  adapter_version := "0.1.0", session_id := .none,
                  workspace := Option.none, git := Option.none,
                  prompt := some { prompt := .str "",
                                   response_summary := .none,
                                   attachments := .none },
                  tool_event := Option.none, session := Option.none,
                  raw_event_type := .str "beforeSubmitPrompt",
                  raw_event := .none }) ∧
    pyLookup "workspace_roots"
      [("hook_event_name", PyVal.str "beforeSubmitPrompt"),
       ("workspace_roots", PyVal.list [.str "/a"])] =
      some (.list [.str "/a"]) :=
  ⟨rfl, rfl⟩

/-- The payload dispatch of the Cursor adapter never touches the
workspace slot. -/
theorem cursorTranslate_workspace (env : Env) (gp : GitProbes)
    (wp : ProbeResult) (e : PyDict) (ev : CanonicalEvent)
    (hT : cursorTranslate env gp wp e = .ok (some ev)) :
    ∃ ety ws base2,
      pyEventType cursorMapping (cursorName e) = some ety ∧
      extract_workspace e wp = .ok ws ∧
      cursorRootsOverride e
        { baseEvent .cursor ety e (cursorName e) env gp ws with
          session_id := pyOr (pyGetD e "conversation_id" .none)
                             (pyGetD e "generation_id" .none) } = .ok base2 ∧
      ev.workspace = base2.workspace := by
  obtain ⟨ety, base2, hm, ⟨ws, hw, hov⟩, _, _, _, _, hdisp⟩ :=
    cursorTranslate_inv env gp wp e ev hT
  refine ⟨ety, ws, base2, hm, hw, hov, ?_⟩
  cases ety <;>
    first
      | (obtain ⟨p, _, hev⟩ := hdisp; subst hev; rfl)
      | (subst hdisp; rfl)

/-- Claim C8 as amended: for every Cursor translation of a mapped event
carrying a non-empty `workspace_roots` list, IF a workspace context was
derived from the event then its `repo_path` is overridden by the first
root and its working directory is seeded by that root when the derived
one is falsy; if no workspace context was derived, the override is
skipped and the translated event carries no workspace at all. -/
theorem C8_workspace_roots_override (env : Env) (gp : GitProbes)
    (wp : ProbeResult) (e : PyDict) (ev : CanonicalEvent)
    (r0 : PyVal) (rs : List PyVal)
    (hT : cursorTranslate env gp wp e = .ok (some ev))
    (hroots : pyGetD e "workspace_roots" (.list []) = .list (r0 :: rs)) :
    (∀ w0, extract_workspace e wp = .ok (some w0) →
      ev.workspace = some
        { repo_name := w0.repo_name, repo_path := r0,
          working_directory :=
            if w0.working_directory.truthy then w0.working_directory else r0,
          files_referenced := w0.files_referenced }) ∧
    (extract_workspace e wp = .ok Option.none →
      ev.workspace = Option.none) := by
  obtain ⟨ety, ws, base2, hm, hw, hov, hevw⟩ :=
    cursorTranslate_workspace env gp wp e ev hT
  have htr : (PyVal.list (r0 :: rs)).truthy = true := by
    simp [PyVal.truthy]
  constructor
  · intro w0 hw0
    rw [hw] at hw0
    simp only [Except.ok.injEq] at hw0
    subst hw0
    simp only [cursorRootsOverride, hroots, baseEvent, htr, if_true,
      pyIndex0] at hov
    simp only [Except.ok.injEq] at hov
    subst hov
    rw [hevw]
  · intro hw0
    rw [hw] at hw0
    simp only [Except.ok.injEq] at hw0
    subst hw0
    simp only [cursorRootsOverride, hroots, baseEvent, htr, if_true,
      pyIndex0] at hov
    simp only [Except.ok.injEq] at hov
    subst hov
    rw [hevw]

/-- Witness for the amended C8: a Cursor `stop` event with a cwd and one
workspace root gets its derived workspace's repo path overridden by that
root, keeping the derived working directory. -/
theorem C8_workspace_roots_override_witness :
    extract_workspace
      [("hook_event_name", PyVal.str "stop"), ("cwd", PyVal.str "/w"),
       ("workspace_roots", PyVal.list [.str "/a"])] .fail =
      .ok (some { repo_name := .none, repo_path := .none,
                  working_directory := .str "/w",
                  files_referenced := .none }) ∧
    ({ tool := .cursor, event_type := .session_end, event_id := "id0",
       timestamp := "ts0", adapter_version := "0.1.0",
       session_id := .none,
       workspace := some { repo_name := .none, repo_path := .str "/a",
                           working_directory := .str "/w",
                           files_referenced := .none },
       raw_event_type := .str "stop" } : CanonicalEvent).workspace =
      some { repo_name := .none, repo_path := .str "/a",
             working_directory := .str "/w", files_referenced := .none } := by
  refine ⟨rfl, ?_⟩
  have h := C8_workspace_roots_override ⟨"id0", "ts0", "0.1.0", false⟩
    ⟨.fail, .fail, .fail, .fail, .fail, .fail, .fail, .fail⟩ .fail
    [("hook_event_name", PyVal.str "stop"), ("cwd", PyVal.str "/w"),
     ("workspace_roots", PyVal.list [.str "/a"])]
    { tool := .cursor, event_type := .session_end, event_id := "id0",
      timestamp := "ts0", adapter_version := "0.1.0",
      session_id := .none,
      workspace := some { repo_name := .none, repo_path := .str "/a",
                          working_directory := .str "/w",
                          files_referenced := .none },
      raw_event_type := .str "stop" }
    (.str "/a") [] rfl rfl
  exact (h.1 { repo_name := .none, repo_path := .none,
               working_directory := .str "/w",
               files_referenced := .none } rfl).trans rfl

/-! ## Round-trip machinery for C2

Every `to_dict` above is a concatenation of blocks: a required entry, an
optional entry emitted when set, or a nested object entry.  One lookup
lemma over that block form drives the round-trip proof. -/

/-- One block of a serialized dictionary. -/
inductive Blk where
  | req (k : String) (v : PyVal)
  | opt (k : String) (v : PyVal)
  | obj (k : String) (d : Option PyDict)

/-- The dictionary a list of blocks serializes to. -/
def blkDict : List Blk → PyDict
  | [] => []
  | .req k v :: rest => (k, v) :: blkDict rest
  | .opt k v :: rest => addIf k v ++ blkDict rest
  | .obj k d :: rest =>
      (match d with
       | some dd => [(k, PyVal.dict dd)]
       | Option.none => []) ++ blkDict rest

/-- The key of a block. -/
def blkKey : Blk → String
  | .req k _ => k
  | .opt k _ => k
  | .obj k _ => k

/-- The lookup result a block contributes for its own key. -/
def blkLook : Blk → Option PyVal
  | .req _ v => some v
  | .opt _ v => if v.isNone then Option.none else some v
  | .obj _ d =>
      match d with
      | some dd => some (PyVal.dict dd)
      | Option.none => Option.none

theorem pyLookup_blkDict_not_mem (k : String) :
    ∀ bs : List Blk, (∀ b ∈ bs, blkKey b ≠ k) →
      pyLookup k (blkDict bs) = Option.none := by
  intro bs
  induction bs with
  | nil => intro h; rfl
  | cons b rest ih =>
    intro h
    have hk : blkKey b ≠ k := h b (List.mem_cons_self b rest)
    have hrest := ih (fun x hx => h x (List.mem_cons_of_mem b hx))
    cases b with
    | req k1 v => simp [blkDict, pyLookup, blkKey, hk] at hk ⊢; simp [hk, hrest]
    | opt k1 v =>
      simp only [blkKey] at hk
      simp only [blkDict, addIf]
      split
      · exact hrest
      · simp [pyLookup, hk, hrest]
    | obj k1 d =>
      simp only [blkKey] at hk
      cases d with
      | none => simpa [blkDict] using hrest
      | some dd => simp [blkDict, pyLookup, hk, hrest]

/-- Lookup in a block dictionary with pairwise-distinct keys is given by
`find?` on the block keys. -/
theorem pyLookup_blkDict_eval (k : String) :
    ∀ bs : List Blk, (bs.map blkKey).Nodup →
      pyLookup k (blkDict bs) =
        (bs.find? (fun b => blkKey b == k)).bind blkLook := by
  intro bs
  induction bs with
  | nil => intro h; rfl
  | cons b rest ih =>
    intro h
    have hnd := (List.nodup_cons.mp h).2
    have hnotin := (List.nodup_cons.mp h).1
    by_cases hk : blkKey b = k
    · subst hk
      have hrest : pyLookup (blkKey b) (blkDict rest) = Option.none := by
        refine pyLookup_blkDict_not_mem _ rest (fun x hx hxk => hnotin ?_)
        rw [← hxk]
        exact List.mem_map_of_mem blkKey hx
      cases b with
      | req k1 v => simp [blkDict, pyLookup, blkKey, blkLook]
      | opt k1 v =>
        simp only [blkDict, addIf, blkKey] at hrest ⊢
        split
        · simp [blkLook, *]
        · simp [pyLookup, blkLook, *]
      | obj k1 d =>
        cases d with
        | none => simpa [blkDict, blkKey, blkLook] using hrest
        | some dd => simp [blkDict, pyLookup, blkKey, blkLook]
    · have hrest := ih hnd
      cases b with
      | req k1 v =>
        simp only [blkKey] at hk
        have hbeq : (k1 == k) = false := beq_eq_false_iff_ne.mpr hk
        simp [blkDict, pyLookup, hk, hbeq, hrest, List.find?, blkKey]
      | opt k1 v =>
        simp only [blkKey] at hk
        have hbeq : (k1 == k) = false := beq_eq_false_iff_ne.mpr hk
        simp only [blkDict, addIf, List.find?]
        split
        · simp [hrest, blkKey, hk, hbeq]
        · simp [pyLookup, hk, hbeq, hrest, blkKey]
      | obj k1 d =>
        simp only [blkKey] at hk
        have hbeq : (k1 == k) = false := beq_eq_false_iff_ne.mpr hk
        cases d with
        | none => simp [blkDict, hrest, List.find?, blkKey, hk, hbeq]
        | some dd => simp [blkDict, pyLookup, hk, hbeq, hrest, List.find?, blkKey]

/-- Every entry of a block dictionary carries the key of its block. -/
theorem blkDict_all_keys (p : String → Bool) :
    ∀ bs : List Blk, (∀ b ∈ bs, p (blkKey b) = true) →
      (blkDict bs).all (fun kv => p kv.1) = true := by
  intro bs
  induction bs with
  | nil => intro h; rfl
  | cons b rest ih =>
    intro h
    have hb := h b (List.mem_cons_self b rest)
    have hrest := ih (fun x hx => h x (List.mem_cons_of_mem b hx))
    cases b with
    | req k1 v =>
      simp only [blkKey] at hb
      simp only [blkDict, List.all_cons, hb, Bool.true_and]
      exact hrest
    | opt k1 v =>
      simp only [blkKey] at hb
      simp only [blkDict, addIf]
      split
      · exact hrest
      · simp only [List.singleton_append, List.all_cons, hb, Bool.true_and]
        exact hrest
    | obj k1 d =>
      simp only [blkKey] at hb
      cases d with
      | none =>
        simp only [blkDict, List.nil_append]
        exact hrest
      | some dd =>
        simp only [blkDict, List.singleton_append, List.all_cons, hb,
          Bool.true_and]
        exact hrest

/-- Recovering an optional field from its block lookup. -/
theorem blkLook_opt_getD (k : String) (v : PyVal) :
    (blkLook (.opt k v)).getD PyVal.none = v := by
  cases v <;> rfl

/-- A required field's block lookup. -/
theorem blkLook_req (k : String) (v : PyVal) : blkLook (.req k v) = some v :=
  rfl

/-- The unfolded form of the previous lemma. -/
theorem ite_isNone_getD (v : PyVal) :
    (if v.isNone = true then Option.none else some v).getD PyVal.none = v := by
  cases v <;> rfl

theorem wsCtx_to_dict_blocks (w : WorkspaceContext) :
    w.to_dict = blkDict
      [.opt "repo_name" w.repo_name, .opt "repo_path" w.repo_path,
       .opt "working_directory" w.working_directory,
       .opt "files_referenced" w.files_referenced] := by
  simp [WorkspaceContext.to_dict, blkDict, List.append_assoc]

theorem wsCtx_fromKwargs_to_dict (w : WorkspaceContext) :
    WorkspaceContext.fromKwargs w.to_dict = some w := by
  rw [wsCtx_to_dict_blocks]
  have hnd : ((([.opt "repo_name" w.repo_name, .opt "repo_path" w.repo_path,
      .opt "working_directory" w.working_directory,
      .opt "files_referenced" w.files_referenced]) : List Blk).map blkKey).Nodup := by
    simp only [List.map, blkKey]
    decide
  unfold WorkspaceContext.fromKwargs
  rw [if_pos ?keys]
  case keys =>
    refine blkDict_all_keys _ _ (fun b hb => ?_)
    simp only [List.mem_cons, List.not_mem_nil, or_false] at hb
    rcases hb with rfl | rfl | rfl | rfl <;> rfl
  simp only [pyGetD, pyLookup_blkDict_eval _ _ hnd, List.find?, blkKey]
  simp [blkLook_opt_getD]

theorem sessionPayload_to_dict_blocks (x : SessionPayload) :
    x.to_dict = blkDict
      [.opt "source" x.source,
       .opt "reason" x.reason] := by
  simp [SessionPayload.to_dict, blkDict, List.append_assoc]

theorem sessionPayload_fromKwargs_to_dict (x : SessionPayload) :
    SessionPayload.fromKwargs x.to_dict = some x := by
  rw [sessionPayload_to_dict_blocks]
  have hnd : ((([.opt "source" x.source,
       .opt "reason" x.reason]) : List Blk).map blkKey).Nodup := by
    simp only [List.map, blkKey]
    decide
  unfold SessionPayload.fromKwargs
  rw [if_pos ?keys]
  case keys =>
    refine blkDict_all_keys _ _ (fun b hb => ?_)
    simp only [List.mem_cons, List.not_mem_nil, or_false] at hb
    rcases hb with rfl | rfl <;> rfl
  simp only [pyGetD, pyLookup_blkDict_eval _ _ hnd, List.find?, blkKey]
  simp [blkLook_opt_getD, blkLook_req]

theorem promptPayload_to_dict_blocks (x : PromptPayload) :
    x.to_dict = blkDict
      [.req "prompt" x.prompt,
       .opt "response_summary" x.response_summary,
       .opt "attachments" x.attachments] := by
  simp [PromptPayload.to_dict, blkDict, List.append_assoc]

theorem promptPayload_fromKwargs_to_dict (x : PromptPayload) :
    PromptPayload.fromKwargs x.to_dict = some x := by
  rw [promptPayload_to_dict_blocks]
  have hnd : ((([.req "prompt" x.prompt,
       .opt "response_summary" x.response_summary,
       .opt "attachments" x.attachments]) : List Blk).map blkKey).Nodup := by
    simp only [List.map, blkKey]
    decide
  unfold PromptPayload.fromKwargs
  rw [if_pos ?keys]
  case keys =>
    refine blkDict_all_keys _ _ (fun b hb => ?_)
    simp only [List.mem_cons, List.not_mem_nil, or_false] at hb
    rcases hb with rfl | rfl | rfl <;> rfl
  simp only [pyGetD, pyLookup_blkDict_eval _ _ hnd, List.find?, blkKey]
  simp [blkLook_opt_getD, blkLook_req]

theorem toolPayload_to_dict_blocks (x : ToolPayload) :
    x.to_dict = blkDict
      [.req "tool_name" x.tool_name,
       .opt "tool_use_id" x.tool_use_id,
       .opt "input" x.input,
       .opt "output" x.output,
       .opt "success" x.success,
       .opt "duration_ms" x.duration_ms,
       .opt "error_message" x.error_message] := by
  simp [ToolPayload.to_dict, blkDict, List.append_assoc]

theorem toolPayload_fromKwargs_to_dict (x : ToolPayload) :
    ToolPayload.fromKwargs x.to_dict = some x := by
  rw [toolPayload_to_dict_blocks]
  have hnd : ((([.req "tool_name" x.tool_name,
       .opt "tool_use_id" x.tool_use_id,
       .opt "input" x.input,
       .opt "output" x.output,
       .opt "success" x.success,
       .opt "duration_ms" x.duration_ms,
       .opt "error_message" x.error_message]) : List Blk).map blkKey).Nodup := by
    simp only [List.map, blkKey]
    decide
  unfold ToolPayload.fromKwargs
  rw [if_pos ?keys]
  case keys =>
    refine blkDict_all_keys _ _ (fun b hb => ?_)
    simp only [List.mem_cons, List.not_mem_nil, or_false] at hb
    rcases hb with rfl | rfl | rfl | rfl | rfl | rfl | rfl <;> rfl
  simp only [pyGetD, pyLookup_blkDict_eval _ _ hnd, List.find?, blkKey]
  simp [blkLook_opt_getD, blkLook_req]

theorem gitContext_to_dict_blocks (x : GitContext) :
    x.to_dict = blkDict
      [.opt "commit_hash" x.commit_hash,
       .opt "commit_message" x.commit_message,
       .opt "commit_author" x.commit_author,
       .opt "commit_timestamp" x.commit_timestamp,
       .opt "branch" x.branch,
       .opt "is_detached_head" x.is_detached_head,
       .opt "is_dirty" x.is_dirty,
       .opt "staged_count" x.staged_count,
       .opt "unstaged_count" x.unstaged_count,
       .opt "untracked_count" x.untracked_count,
       .opt "ahead_count" x.ahead_count,
       .opt "behind_count" x.behind_count,
       .opt "upstream_branch" x.upstream_branch,
       .opt "remote_url" x.remote_url] := by
  simp [GitContext.to_dict, blkDict, List.append_assoc]

theorem gitContext_fromKwargs_to_dict (x : GitContext) :
    GitContext.fromKwargs x.to_dict = some x := by
  rw [gitContext_to_dict_blocks]
  have hnd : ((([.opt "commit_hash" x.commit_hash,
       .opt "commit_message" x.commit_message,
       .opt "commit_author" x.commit_author,
       .opt "commit_timestamp" x.commit_timestamp,
       .opt "branch" x.branch,
       .opt "is_detached_head" x.is_detached_head,
       .opt "is_dirty" x.is_dirty,
       .opt "staged_count" x.staged_count,
       .opt "unstaged_count" x.unstaged_count,
       .opt "untracked_count" x.untracked_count,
       .opt "ahead_count" x.ahead_count,
       .opt "behind_count" x.behind_count,
       .opt "upstream_branch" x.upstream_branch,
       .opt "remote_url" x.remote_url]) : List Blk).map blkKey).Nodup := by
    simp only [List.map, blkKey]
    decide
  unfold GitContext.fromKwargs
  rw [if_pos ?keys]
  case keys =>
    refine blkDict_all_keys _ _ (fun b hb => ?_)
    simp only [List.mem_cons, List.not_mem_nil, or_false] at hb
    rcases hb with rfl | rfl | rfl | rfl | rfl | rfl | rfl | rfl | rfl | rfl | rfl | rfl | rfl | rfl <;> rfl
  simp only [pyGetD, pyLookup_blkDict_eval _ _ hnd, List.find?, blkKey]
  simp [blkLook_opt_getD, blkLook_req]

theorem canonicalEvent_to_dict_blocks (e : CanonicalEvent) :
    e.to_dict = blkDict
      [.req "tool" (.str e.tool.value),
       .req "event_type" (.str e.event_type.value),
       .req "event_id" (.str e.event_id),
       .req "timestamp" (.str e.timestamp),
       .req "adapter_version" (.str e.adapter_version),
       .opt "session_id" e.session_id,
       .obj "workspace" (e.workspace.map WorkspaceContext.to_dict),
       .obj "git" (e.git.map GitContext.to_dict),
       .obj "prompt" (e.prompt.map PromptPayload.to_dict),
       .obj "tool_event" (e.tool_event.map ToolPayload.to_dict),
       .obj "session" (e.session.map SessionPayload.to_dict),
       .opt "raw_event_type" e.raw_event_type,
       .opt "raw_event" e.raw_event] := by
  simp only [CanonicalEvent.to_dict, blkDict, addObj, List.append_assoc,
    List.append_nil]
  cases e.workspace <;> cases e.git <;> cases e.prompt <;>
    cases e.tool_event <;> cases e.session <;> simp

/-- Counterexample to claim C2: a `session_start` event whose
SessionPayload has neither `source` nor `reason` serializes its session
slot to an empty dict, which `from_dict`'s truthiness test
(`if "session" in data and data["session"]`) treats as absent — the
round trip returns the event with the session slot dropped, not an equal
event. -/
theorem C2_counterexample :
    CanonicalEvent.from_dict
      (CanonicalEvent.to_dict
        { tool := .claude_code, event_type := .session_start,
          event_id := "e1", timestamp := "t1", adapter_version := "v1",
          session := some { source := .none, reason := .none } }) =
      some { tool := .claude_code, event_type := .session_start,
             event_id := "e1", timestamp := "t1", adapter_version := "v1",
             session := Option.none } ∧
    CanonicalEvent.from_dict
      (CanonicalEvent.to_dict
        { tool := .claude_code, event_type := .session_start,
          event_id := "e1", timestamp := "t1", adapter_version := "v1",
          session := some { source := .none, reason := .none } }) ≠
      some { tool := .claude_code, event_type := .session_start,
             event_id := "e1", timestamp := "t1", adapter_version := "v1",
             session := some { source := .none, reason := .none } } := by
  refine ⟨rfl, ?_⟩
  intro h
  rw [show CanonicalEvent.from_dict
      (CanonicalEvent.to_dict
        { tool := .claude_code, event_type := .session_start,
          event_id := "e1", timestamp := "t1", adapter_version := "v1",
          session := some { source := .none, reason := .none } }) =
      some { tool := .claude_code, event_type := .session_start,
             event_id := "e1", timestamp := "t1", adapter_version := "v1",
             session := Option.none } from rfl] at h
  simp [CanonicalEvent.mk.injEq] at h

/-- The object-block lookup as an `Option.map`. -/
theorem blkLook_obj (k : String) (d : Option PyDict) :
    blkLook (.obj k d) = d.map PyVal.dict := by
  cases d <;> rfl

/-- `parseObj` recovers a nested object whose lookup is its serialized
dict, provided a present object serializes non-empty and the kwargs
constructor inverts the serializer. -/
theorem parseObj_lookup (k : String) (fromK : PyDict → Option α)
    (toD : α → PyDict) (d : PyDict) (o : Option α)
    (hl : pyLookup k d = o.map (fun x => PyVal.dict (toD x)))
    (hround : ∀ x, fromK (toD x) = some x)
    (hne : ∀ x, o = some x → toD x ≠ []) :
    parseObj k fromK d = some o := by
  cases o with
  | none => simp [parseObj, hl]
  | some x =>
    have h1 := hne x rfl
    have htr : (PyVal.dict (toD x)).truthy = true := by
      simp [PyVal.truthy, List.isEmpty_eq_true, h1]
    simp [parseObj, hl, htr, hround]

/-- Claim C2 as amended: for every constructible CanonicalEvent whose
present nested objects each serialize to a non-empty dict (in particular
whose session payload, when present, has at least one of `source` /
`reason` set), `from_dict (to_dict x)` is field-for-field equal to `x`;
a present nested object serializing to the empty dict (e.g. a
SessionPayload with both fields unset) is dropped by the round trip. -/
theorem C2_round_trip (e : CanonicalEvent)
    (hw : ∀ w, e.workspace = some w → w.to_dict ≠ [])
    (hg : ∀ g, e.git = some g → g.to_dict ≠ [])
    (hs : ∀ s, e.session = some s → s.to_dict ≠ []) :
    CanonicalEvent.from_dict e.to_dict = some e := by
  rw [canonicalEvent_to_dict_blocks]
  set B : List Blk :=
      [.req "tool" (.str e.tool.value),
       .req "event_type" (.str e.event_type.value),
       .req "event_id" (.str e.event_id),
       .req "timestamp" (.str e.timestamp),
       .req "adapter_version" (.str e.adapter_version),
       .opt "session_id" e.session_id,
       .obj "workspace" (e.workspace.map WorkspaceContext.to_dict),
       .obj "git" (e.git.map GitContext.to_dict),
       .obj "prompt" (e.prompt.map PromptPayload.to_dict),
       .obj "tool_event" (e.tool_event.map ToolPayload.to_dict),
       .obj "session" (e.session.map SessionPayload.to_dict),
       .opt "raw_event_type" e.raw_event_type,
       .opt "raw_event" e.raw_event] with hB
  have hnd : (B.map blkKey).Nodup := by
    rw [hB]
    simp only [List.map, blkKey]
    decide
  have l1 : pyLookup "tool" (blkDict B) = some (.str e.tool.value) := by
    rw [pyLookup_blkDict_eval _ _ hnd, hB]
    simp [blkKey, blkLook]
  have l2 : pyLookup "event_type" (blkDict B) =
      some (.str e.event_type.value) := by
    rw [pyLookup_blkDict_eval _ _ hnd, hB]
    simp [blkKey, blkLook]
  have l3 : pyLookup "event_id" (blkDict B) = some (.str e.event_id) := by
    rw [pyLookup_blkDict_eval _ _ hnd, hB]
    simp [blkKey, blkLook]
  have l4 : pyLookup "timestamp" (blkDict B) = some (.str e.timestamp) := by
    rw [pyLookup_blkDict_eval _ _ hnd, hB]
    simp [blkKey, blkLook]
  have l5 : pyLookup "adapter_version" (blkDict B) =
      some (.str e.adapter_version) := by
    rw [pyLookup_blkDict_eval _ _ hnd, hB]
    simp [blkKey, blkLook]
  have l6 : pyGetD (blkDict B) "session_id" PyVal.none = e.session_id := by
    rw [pyGetD, pyLookup_blkDict_eval _ _ hnd, hB]
    simp [blkKey]
    exact blkLook_opt_getD _ _
  have l7 : pyLookup "workspace" (blkDict B) =
      e.workspace.map (fun w => PyVal.dict w.to_dict) := by
    rw [pyLookup_blkDict_eval _ _ hnd, hB]
    simp [blkKey, blkLook_obj, Option.map_map]
    rfl
  have l8 : pyLookup "git" (blkDict B) =
      e.git.map (fun g => PyVal.dict g.to_dict) := by
    rw [pyLookup_blkDict_eval _ _ hnd, hB]
    simp [blkKey, blkLook_obj, Option.map_map]
    rfl
  have l9 : pyLookup "prompt" (blkDict B) =
      e.prompt.map (fun p => PyVal.dict p.to_dict) := by
    rw [pyLookup_blkDict_eval _ _ hnd, hB]
    simp [blkKey, blkLook_obj, Option.map_map]
    rfl
  have l10 : pyLookup "tool_event" (blkDict B) =
      e.tool_event.map (fun t => PyVal.dict t.to_dict) := by
    rw [pyLookup_blkDict_eval _ _ hnd, hB]
    simp [blkKey, blkLook_obj, Option.map_map]
    rfl
  have l11 : pyLookup "session" (blkDict B) =
      e.session.map (fun x => PyVal.dict x.to_dict) := by
    rw [pyLookup_blkDict_eval _ _ hnd, hB]
    simp [blkKey, blkLook_obj, Option.map_map]
    rfl
  have l12 : pyGetD (blkDict B) "raw_event_type" PyVal.none =
      e.raw_event_type := by
    rw [pyGetD, pyLookup_blkDict_eval _ _ hnd, hB]
    simp [blkKey]
    exact blkLook_opt_getD _ _
  have l13 : pyGetD (blkDict B) "raw_event" PyVal.none = e.raw_event := by
    rw [pyGetD, pyLookup_blkDict_eval _ _ hnd, hB]
    simp [blkKey]
    exact blkLook_opt_getD _ _
  have pw := parseObj_lookup "workspace" WorkspaceContext.fromKwargs
    WorkspaceContext.to_dict (blkDict B) e.workspace l7
    wsCtx_fromKwargs_to_dict hw
  have pg := parseObj_lookup "git" GitContext.fromKwargs
    GitContext.to_dict (blkDict B) e.git l8
    gitContext_fromKwargs_to_dict hg
  have pp := parseObj_lookup "prompt" PromptPayload.fromKwargs
    PromptPayload.to_dict (blkDict B) e.prompt l9
    promptPayload_fromKwargs_to_dict (fun p _ => by simp [PromptPayload.to_dict])
  have pt := parseObj_lookup "tool_event" ToolPayload.fromKwargs
    ToolPayload.to_dict (blkDict B) e.tool_event l10
    toolPayload_fromKwargs_to_dict (fun t _ => by simp [ToolPayload.to_dict])
  have ps := parseObj_lookup "session" SessionPayload.fromKwargs
    SessionPayload.to_dict (blkDict B) e.session l11
    sessionPayload_fromKwargs_to_dict hs
  simp only [CanonicalEvent.from_dict, reqStr, l1, l2, l3, l4, l5, l6, l12,
    l13, pw, pg, pp, pt, ps]
  simp [toolOfValue_value, eventTypeOfValue_value]

/-- Witness for the amended C2 at a concrete event with every optional
slot populated non-emptily. -/
theorem C2_round_trip_witness :
    CanonicalEvent.from_dict
      (CanonicalEvent.to_dict
        { tool := .cursor, event_type := .prompt_submit, event_id := "e2",
          timestamp := "t2", adapter_version := "v2",
          session_id := .str "s1",
          workspace := some { repo_name := .str "r" },
          git := some { commit_hash := .str "c" },
          prompt := some { prompt := .str "hi" },
          tool_event := Option.none,
          session := some { source := .str "startup", reason := .none },
          raw_event_type := .str "beforeSubmitPrompt",
          raw_event := .none }) =
      some { tool := .cursor, event_type := .prompt_submit, event_id := "e2",
             timestamp := "t2", adapter_version := "v2",
             session_id := .str "s1",
             workspace := some { repo_name := .str "r" },
             git := some { commit_hash := .str "c" },
             prompt := some { prompt := .str "hi" },
             tool_event := Option.none,
             session := some { source := .str "startup", reason := .none },
             raw_event_type := .str "beforeSubmitPrompt",
             raw_event := .none } :=
  C2_round_trip _
    (fun w h => by
      cases h
      simp [WorkspaceContext.to_dict, addIf, PyVal.isNone])
    (fun g h => by
      cases h
      simp [GitContext.to_dict, addIf, PyVal.isNone])
    (fun s h => by
      cases h
      simp [SessionPayload.to_dict, addIf, PyVal.isNone])
